import Mathlib

/-!
Verification of the PharmaGuard inference pipeline.

This file gives a shallow embedding, in Lean 4, of the core classification
pipeline of the PharmaGuard repository: the allele-activity model and
phenotype classifier (`src/genotype_phenotype.py`), the legacy exact
diplotype tables (`src/gene_models.py`), the drug-gene risk resolver
(`src/drug_mapping.py`), the CPIC guidance tables
(`src/cpic_dosing_rules.py`, `src/phenotype_risk_mapper.py`), the VCF
parser (`src/vcf_parser.py`) and the pipeline orchestrator
(`src/risk_predictor.py`).  Python dictionaries are embedded as
association lists looked up in insertion order, Python floats as exact
rationals (every constant in the sources is small and decimal, and no
claim examined here falls on a binary rounding boundary), and Python
`None` as `Option`.
-/

namespace PharmaGuard

/-- Association-list lookup: first entry whose key equals `k`
(embedding of a Python `dict` lookup, insertion order preserved). -/
def alistGet {α β : Type} [DecidableEq α] (l : List (α × β)) (k : α) : Option β :=
  match l with
  | [] => none
  | e :: t => if e.1 = k then some e.2 else alistGet t k

/-- Metabolizer phenotype classifications (`gene_models.Phenotype`). -/
inductive Phenotype where
  | ULTRA_RAPID
  | RAPID
  | NORMAL
  | INTERMEDIATE
  | POOR
  | NO_FUNCTION
deriving DecidableEq, Repr

/-- `Phenotype.value` strings from `gene_models.py`. -/
def Phenotype.value : Phenotype → String
  | .ULTRA_RAPID => "Ultra-Rapid Metabolizer"
  | .RAPID => "Rapid Metabolizer"
  | .NORMAL => "Normal Metabolizer"
  | .INTERMEDIATE => "Intermediate Metabolizer"
  | .POOR => "Poor Metabolizer"
  | .NO_FUNCTION => "No Function"

/-- Drug risk classification (`gene_models.RiskLevel`). -/
inductive RiskLevel where
  | SAFE
  | ADJUST_DOSAGE
  | TOXIC
  | INEFFECTIVE
  | UNKNOWN
deriving DecidableEq, Repr

/-- `RiskLevel.value` strings from `gene_models.py`. -/
def RiskLevel.value : RiskLevel → String
  | .SAFE => "Safe"
  | .ADJUST_DOSAGE => "Adjust Dosage"
  | .TOXIC => "Toxic"
  | .INEFFECTIVE => "Ineffective"
  | .UNKNOWN => "Unknown"

/-! ## Allele activity tables (`genotype_phenotype.GenotypePhenotypeConverter`) -/

/-- `CYP2D6_ALLELES` from `genotype_phenotype.py`. -/
def CYP2D6_ALLELES : List (String × ℚ) :=
  [("*1", 1.0), ("*2", 0.0), ("*3", 0.0), ("*4", 0.0), ("*5", 0.0),
   ("*6", 0.0), ("*7", 0.0), ("*8", 0.0), ("*9", 0.5), ("*10", 0.5),
   ("*11", 0.0), ("*12", 1.0), ("*14", 0.5), ("*15", 0.0), ("*17", 0.5),
   ("*19", 0.0), ("*20", 0.5), ("*29", 0.5), ("*35", 0.0), ("*36", 0.5),
   ("*37", 0.0), ("*38", 0.0), ("*39", 0.5), ("*40", 0.0), ("*41", 0.5),
   ("*42", 0.0), ("*43", 0.0), ("*44", 0.0), ("*45", 0.0), ("*46", 0.0),
   ("*47", 0.0), ("*48", 0.0), ("*49", 0.0), ("*50", 0.5)]

/-- `CYP2C19_ALLELES` from `genotype_phenotype.py`. -/
def CYP2C19_ALLELES : List (String × ℚ) :=
  [("*1", 1.0), ("*2", 0.0), ("*3", 0.0), ("*4", 0.0), ("*5", 0.0),
   ("*6", 0.0), ("*7", 0.0), ("*8", 1.0), ("*9", 1.0), ("*10", 1.0),
   ("*11", 1.0), ("*12", 0.0), ("*13", 1.0), ("*14", 1.0), ("*15", 0.0),
   ("*16", 1.0), ("*17", 1.0), ("*18", 1.0), ("*19", 1.0), ("*20", 1.0)]

/-- `CYP2C9_ALLELES` from `genotype_phenotype.py`. -/
def CYP2C9_ALLELES : List (String × ℚ) :=
  [("*1", 1.0), ("*2", 0.8), ("*3", 0.05), ("*4", 0.5), ("*5", 0.2),
   ("*6", 0.0), ("*7", 0.88), ("*8", 0.7), ("*9", 1.0), ("*10", 1.0),
   ("*11", 0.8), ("*12", 0.5), ("*13", 0.5)]

/-- `TPMT_ALLELES` from `genotype_phenotype.py`. -/
def TPMT_ALLELES : List (String × ℚ) :=
  [("*1", 1.0), ("*2", 0.0), ("*3A", 0.0), ("*3B", 0.0), ("*3C", 0.0),
   ("*4", 1.0), ("*5", 0.0), ("*6", 0.0), ("*7", 0.0), ("*8", 0.5),
   ("*9", 1.0), ("*10", 1.0), ("*11", 1.0), ("*12", 1.0), ("*13", 0.0)]

/-- `SLCO1B1_ALLELES` from `genotype_phenotype.py`. -/
def SLCO1B1_ALLELES : List (String × ℚ) :=
  [("*1A", 1.0), ("*1B", 1.0), ("*1C", 0.8), ("*1D", 0.7), ("*1E", 0.9),
   ("*2", 0.5), ("*3", 0.5), ("*4", 0.3), ("*5", 0.0), ("*15", 0.5),
   ("*17", 0.5)]

/-- `DPYD_ALLELES` from `genotype_phenotype.py`. -/
def DPYD_ALLELES : List (String × ℚ) :=
  [("*1", 1.0), ("*1A", 1.0), ("*1B", 1.0), ("*2A", 0.0), ("*2B", 0.0),
   ("*3", 0.0), ("*4", 0.0), ("*5", 0.0), ("*6", 0.0), ("*7", 0.0),
   ("*8", 0.0), ("*9A", 0.0), ("*9B", 0.0), ("*13", 0.0)]

/-- `CYP3A4_ALLELES` from `genotype_phenotype.py`. -/
def CYP3A4_ALLELES : List (String × ℚ) :=
  [("*1", 1.0), ("*1A", 1.0), ("*1B", 1.0), ("*1D", 1.0), ("*2", 0.5),
   ("*3", 0.7), ("*4", 1.0), ("*5", 0.0), ("*6", 0.0)]

/-- `CYP3A5_ALLELES` from `genotype_phenotype.py`. -/
def CYP3A5_ALLELES : List (String × ℚ) :=
  [("*1", 1.0), ("*2", 0.0), ("*3", 0.0), ("*4", 0.0), ("*5", 0.0),
   ("*6", 0.0), ("*7", 0.0), ("*9", 0.0), ("*10", 0.5)]

/-- `self.allele_definitions` built in `GenotypePhenotypeConverter.__init__`. -/
def allele_definitions (gene : String) : Option (List (String × ℚ)) :=
  alistGet
    [("CYP2D6", CYP2D6_ALLELES), ("CYP2C19", CYP2C19_ALLELES),
     ("CYP2C9", CYP2C9_ALLELES), ("TPMT", TPMT_ALLELES),
     ("SLCO1B1", SLCO1B1_ALLELES), ("DPYD", DPYD_ALLELES),
     ("CYP3A4", CYP3A4_ALLELES), ("CYP3A5", CYP3A5_ALLELES)] gene

/-- `alleles_dict.get(allele, 1.0)`: unknown alleles default to wildtype
activity 1.0. -/
def get_activity (tbl : List (String × ℚ)) (allele : String) : ℚ :=
  (alistGet tbl allele).getD 1

/-- `total_activity = activity1 + activity2` from
`convert_diplotype_to_phenotype`. -/
def total_activity (tbl : List (String × ℚ)) (d : String × String) : ℚ :=
  get_activity tbl d.1 + get_activity tbl d.2

/-- `GenotypePhenotypeConverter._activity_to_phenotype`: gene-specific
threshold ladders. -/
def activity_to_phenotype (gene : String) (activity : ℚ) : Phenotype :=
  if gene = "CYP2D6" then
    if activity ≥ 1.75 then .ULTRA_RAPID
    else if activity ≥ 1.25 then .RAPID
    else if activity > 1.0 then .NORMAL
    else if activity ≥ 0.25 then .INTERMEDIATE
    else .POOR
  else if gene = "CYP2C19" then
    if activity ≥ 1.5 then .NORMAL
    else if activity ≥ 0.5 then .INTERMEDIATE
    else .POOR
  else if gene = "CYP2C9" then
    if activity ≥ 1.8 then .NORMAL
    else if activity ≥ 1.2 then .INTERMEDIATE
    else if activity ≥ 0.3 then .POOR
    else .NO_FUNCTION
  else if gene = "TPMT" then
    if activity ≥ 1.6 then .NORMAL
    else if activity ≥ 0.5 then .INTERMEDIATE
    else .POOR
  else if gene ∈ (["SLCO1B1", "CYP3A4", "CYP3A5"] : List String) then
    if activity ≥ 1.8 then .NORMAL
    else if activity ≥ 0.9 then .INTERMEDIATE
    else .POOR
  else if gene = "DPYD" then
    if activity ≥ 1.8 then .NORMAL
    else if activity ≥ 0.9 then .INTERMEDIATE
    else .POOR
  else .NORMAL

/-- `GenotypePhenotypeConverter.convert_diplotype_to_phenotype`. -/
def convert_diplotype_to_phenotype (gene : String) (diplotype : String × String) :
    Phenotype :=
  match allele_definitions gene with
  | none => .NORMAL
  | some tbl => activity_to_phenotype gene (total_activity tbl diplotype)

/-! ## Legacy exact-diplotype tables (`gene_models.GENOTYPE_PHENOTYPE_MAP`) -/

/-- `GENOTYPE_PHENOTYPE_MAP` from `gene_models.py`. -/
def GENOTYPE_PHENOTYPE_MAP :
    List (String × List ((String × String) × Phenotype)) :=
  [("CYP2D6",
    [(("*1", "*1"), .NORMAL), (("*1", "*2"), .NORMAL),
     (("*1", "*40"), .INTERMEDIATE), (("*1", "*5"), .INTERMEDIATE),
     (("*1", "*41"), .INTERMEDIATE), (("*2", "*2"), .NORMAL),
     (("*4", "*4"), .POOR), (("*5", "*5"), .POOR),
     (("*1", "*4"), .INTERMEDIATE)]),
   ("CYP2C19",
    [(("*1", "*1"), .NORMAL), (("*1", "*2"), .INTERMEDIATE),
     (("*1", "*3"), .INTERMEDIATE), (("*2", "*2"), .POOR),
     (("*2", "*3"), .POOR), (("*3", "*3"), .POOR)]),
   ("CYP2C9",
    [(("*1", "*1"), .NORMAL), (("*1", "*2"), .INTERMEDIATE),
     (("*1", "*3"), .INTERMEDIATE), (("*2", "*2"), .INTERMEDIATE),
     (("*2", "*3"), .POOR), (("*3", "*3"), .POOR)]),
   ("TPMT",
    [(("*1", "*1"), .NORMAL), (("*1", "*2"), .INTERMEDIATE),
     (("*1", "*3A"), .INTERMEDIATE), (("*2", "*2"), .POOR),
     (("*2", "*3A"), .POOR), (("*3A", "*3A"), .POOR)])]

/-- The legacy fallback of `RiskPredictor.genotype_to_phenotype`: exact
diplotype match, then the reversed pair, else `None`. -/
def legacy_phenotype_lookup (gene : String) (genotype : String × String) :
    Option Phenotype :=
  match alistGet GENOTYPE_PHENOTYPE_MAP gene with
  | none => none
  | some m =>
    match alistGet m genotype with
    | some p => some p
    | none => alistGet m (genotype.2, genotype.1)

/-- `supported_genes` in `RiskPredictor.genotype_to_phenotype`. -/
def supported_genes : List String :=
  ["CYP2D6", "CYP2C19", "CYP2C9", "TPMT", "SLCO1B1", "DPYD", "CYP3A4", "CYP3A5"]

/-- `RiskPredictor.genotype_to_phenotype`: activity-model path for
supported genes (the converter is total, so its `except` guard never
fires), else the legacy exact-diplotype table. -/
def genotype_to_phenotype (gene : String) (genotype : String × String) :
    Option Phenotype :=
  if gene ∈ supported_genes then
    some (convert_diplotype_to_phenotype gene genotype)
  else
    legacy_phenotype_lookup gene genotype

/-! ## Python string primitives

Kernel-computable embeddings of the Python string operations the sources
use; each operates on the character list of a `String`. -/

/-- Python `str.lower()` (all data in the embedded tables is ASCII). -/
def pyLower (s : String) : String := ⟨s.data.map Char.toLower⟩

/-- Python `str.strip()` with no argument: remove leading and trailing
whitespace. -/
def pyStrip (s : String) : String :=
  ⟨((s.data.dropWhile Char.isWhitespace).reverse.dropWhile Char.isWhitespace).reverse⟩

/-- Python `"sep".join(l)`. -/
def pyJoin (sep : String) : List String → String
  | [] => ""
  | [x] => x
  | x :: rest => x ++ sep ++ pyJoin sep rest

/-! ## Drug-gene risk resolver (`drug_mapping.py`) -/

/-- `DRUG_ALIASES` from `drug_mapping.py` (the duplicated
`"azathioprine"` literal key collapses to one entry, as in a Python
dict). -/
def DRUG_ALIASES : List (String × String) :=
  [("warfarin", "Warfarin"), ("warfarine", "Warfarin"),
   ("coumarin", "Warfarin"), ("coumarine", "Warfarin"),
   ("codeine", "Codeine"), ("tylenol 3", "Codeine"),
   ("clopidogrel", "Clopidogrel"), ("clopidogel", "Clopidogrel"),
   ("plavix", "Clopidogrel"),
   ("simvastatin", "Simvastatin"), ("simvastine", "Simvastatin"),
   ("zocor", "Simvastatin"),
   ("azathioprine", "Azathioprine"), ("imuran", "Azathioprine"),
   ("aza", "Azathioprine"),
   ("fluorouracil", "Fluorouracil"), ("fluorouracile", "Fluorouracil"),
   ("5fu", "Fluorouracil"), ("5-fu", "Fluorouracil"),
   ("adrucil", "Fluorouracil"),
   ("metoprolol", "Metoprolol"), ("metaprolol", "Metoprolol"),
   ("lopressor", "Metoprolol"),
   ("amitriptyline", "Amitriptyline"), ("amitrityline", "Amitriptyline"),
   ("elavil", "Amitriptyline")]

/-- `DRUG_GENE_MAP` from `drug_mapping.py`. -/
def DRUG_GENE_MAP : List (String × List String) :=
  [("Codeine", ["CYP2D6"]), ("Warfarin", ["CYP2C9", "VKORC1"]),
   ("Clopidogrel", ["CYP2C19"]), ("Simvastatin", ["CYP3A4", "SLCO1B1"]),
   ("Azathioprine", ["TPMT"]), ("Fluorouracil", ["DPYD"]),
   ("Metoprolol", ["CYP2D6"]), ("Amitriptyline", ["CYP2D6", "CYP2C19"]),
   ("Tacrolimus", ["CYP3A5"]), ("Phenytoin", ["CYP2C9", "HLA-B"])]

/-- `PHENOTYPE_RISK_MAP` from `drug_mapping.py`.  Note the only
Simvastatin key is spelled `"SLC01B1"` with a digit zero. -/
def PHENOTYPE_RISK_MAP :
    List ((String × String) × List (Phenotype × RiskLevel)) :=
  [(("CYP2D6", "Codeine"),
    [(.ULTRA_RAPID, .TOXIC), (.RAPID, .ADJUST_DOSAGE), (.NORMAL, .SAFE),
     (.INTERMEDIATE, .ADJUST_DOSAGE), (.POOR, .INEFFECTIVE),
     (.NO_FUNCTION, .INEFFECTIVE)]),
   (("CYP2C9", "Warfarin"),
    [(.NORMAL, .SAFE), (.INTERMEDIATE, .ADJUST_DOSAGE),
     (.POOR, .ADJUST_DOSAGE)]),
   (("CYP2C19", "Clopidogrel"),
    [(.NORMAL, .SAFE), (.INTERMEDIATE, .ADJUST_DOSAGE),
     (.POOR, .INEFFECTIVE)]),
   (("SLC01B1", "Simvastatin"),
    [(.NORMAL, .SAFE), (.INTERMEDIATE, .ADJUST_DOSAGE),
     (.POOR, .ADJUST_DOSAGE)]),
   (("TPMT", "Azathioprine"),
    [(.NORMAL, .SAFE), (.INTERMEDIATE, .ADJUST_DOSAGE), (.POOR, .TOXIC)]),
   (("DPYD", "Fluorouracil"),
    [(.NORMAL, .SAFE), (.INTERMEDIATE, .ADJUST_DOSAGE), (.POOR, .TOXIC)])]

/-- The alias normalization step shared by `predict_drug_risk` and
`get_drug_recommendations`: `DRUG_ALIASES.get(drug_name.lower().strip())`,
unresolved names pass through unchanged. -/
def normalize_drug_name (drug_name : String) : String :=
  match alistGet DRUG_ALIASES (pyStrip (pyLower drug_name)) with
  | some canonical => canonical
  | none => drug_name

/-- `DrugGeneMapper.get_relevant_genes`: alias normalization, then the
first case-insensitive key match in `DRUG_GENE_MAP`, else `[]`. -/
def get_relevant_genes (drug_name : String) : List String :=
  match DRUG_GENE_MAP.find?
      (fun e => pyLower e.1 == pyLower (normalize_drug_name drug_name)) with
  | some e => e.2
  | none => []

/-- The per-gene loop of `DrugGeneMapper.predict_drug_risk`: collected
verdicts (in gene order) and explanation lines. -/
def gene_loop (drug_name : String) (gene_phenotypes : String → Option Phenotype) :
    List String → List RiskLevel × List String
  | [] => ([], [])
  | gene :: rest =>
    let tail := gene_loop drug_name gene_phenotypes rest
    match gene_phenotypes gene with
    | none => (tail.1, (gene ++ ": No variant data available") :: tail.2)
    | some phenotype =>
      match alistGet PHENOTYPE_RISK_MAP (gene, drug_name) with
      | some m =>
        let risk := (alistGet m phenotype).getD RiskLevel.UNKNOWN
        (risk :: tail.1,
         (gene ++ " (" ++ phenotype.value ++ "): " ++ risk.value) :: tail.2)
      | none =>
        (tail.1,
         (gene ++ ": No CPIC mapping for " ++ drug_name ++
          " - manual review recommended") :: tail.2)

/-- `risk_hierarchy` in `predict_drug_risk`: most severe first. -/
def risk_hierarchy : List RiskLevel :=
  [.TOXIC, .INEFFECTIVE, .ADJUST_DOSAGE, .SAFE, .UNKNOWN]

/-- `DrugGeneMapper.predict_drug_risk`.  A gene missing from
`gene_phenotypes` and a gene mapped to `None` behave identically in the
source (`gene not in gene_phenotypes or gene_phenotypes[gene] is None`),
so phenotype assignments are embedded as one `String → Option Phenotype`. -/
def predict_drug_risk (drug_name : String)
    (gene_phenotypes : String → Option Phenotype) : RiskLevel × String :=
  let d := normalize_drug_name drug_name
  let relevant_genes := get_relevant_genes d
  if relevant_genes = [] then
    (RiskLevel.UNKNOWN,
     "No pharmacogenomic data available for '" ++ d ++
     "'. Consult clinical pharmacist or CPIC guidelines.")
  else
    let looped := gene_loop d gene_phenotypes relevant_genes
    if looped.1 = [] then
      (RiskLevel.UNKNOWN, pyJoin " | " looped.2)
    else
      ((risk_hierarchy.find? (fun r => looped.1.contains r)).getD RiskLevel.UNKNOWN,
       pyJoin " | " looped.2)

/-- The list of per-gene verdicts `predict_drug_risk` collects for a drug
(`risks` in the source). -/
def per_gene_verdicts (drug_name : String)
    (gene_phenotypes : String → Option Phenotype) : List RiskLevel :=
  (gene_loop (normalize_drug_name drug_name) gene_phenotypes
    (get_relevant_genes (normalize_drug_name drug_name))).1

/-! ## CPIC dosing rules (`cpic_dosing_rules.py`) -/

/-- One value of the `CPIC_DOSING_RULES` dict; every entry in the source
defines all six keys. -/
structure CpicRule where
  dosing_recommendation : String
  strength : String
  clinical_guidance : String
  monitoring : String
  cpic_level : String
  ref : String
deriving DecidableEq, Repr

/-- `CPIC_DOSING_RULES` from `cpic_dosing_rules.py`. -/
def CPIC_DOSING_RULES : List ((String × Phenotype) × CpicRule) :=
  [(("Codeine", .ULTRA_RAPID),
    { dosing_recommendation := "NOT RECOMMENDED - Risk of toxicity at normal doses. Use alternative analgesic.",
      strength := "Strong",
      clinical_guidance := "Ultra-rapid metabolizers produce high amounts of morphine from codeine, increasing risk of overdose and side effects.",
      monitoring := "If must use: Monitor closely for respiratory depression, oversedation, and toxicity signs.",
      cpic_level := "1A",
      ref := "PharmGKB CPIC Codeine/CYP2D6" }),
   (("Codeine", .RAPID),
    { dosing_recommendation := "Normal dose with consideration for increased effect. Monitor response closely.",
      strength := "Moderate",
      clinical_guidance := "Rapid metabolizers may achieve therapeutic levels faster. Standard dosing may produce higher drug effects.",
      monitoring := "Monitor for increased side effects; dose reduction may be considered.",
      cpic_level := "2A",
      ref := "PharmGKB CPIC Codeine/CYP2D6" }),
   (("Codeine", .NORMAL),
    { dosing_recommendation := "Use normal recommended dose (15-60 mg every 4-6 hours as needed).",
      strength := "Strong",
      clinical_guidance := "Normal metabolizers: Standard dosing expected to produce therapeutic effect.",
      monitoring := "Standard opioid monitoring for pain control and side effects.",
      cpic_level := "1A",
      ref := "PharmGKB CPIC Codeine/CYP2D6" }),
   (("Codeine", .INTERMEDIATE),
    { dosing_recommendation := "Consider higher than normal dose or shorter dosing intervals. Standard dose may be inadequate.",
      strength := "Moderate",
      clinical_guidance := "Reduced metabolism leads to lower morphine conversion (10-20% reduction).",
      monitoring := "Monitor pain control; increase dose if inadequate response.",
      cpic_level := "2A",
      ref := "PharmGKB CPIC Codeine/CYP2D6" }),
   (("Codeine", .POOR),
    { dosing_recommendation := "NOT RECOMMENDED - Ineffective at standard doses. Use alternative analgesic.",
      strength := "Strong",
      clinical_guidance := "Poor metabolizers have little-to-no morphine formation, making codeine ineffective for pain relief.",
      monitoring := "If used despite recommendation: Monitor for lack of pain relief.",
      cpic_level := "1A",
      ref := "PharmGKB CPIC Codeine/CYP2D6" }),
   (("Codeine", .NO_FUNCTION),
    { dosing_recommendation := "NOT RECOMMENDED - Completely ineffective. Use alternative analgesic.",
      strength := "Strong",
      clinical_guidance := "Complete loss of CYP2D6 function prevents morphine formation.",
      monitoring := "Not applicable - use alternative pain management.",
      cpic_level := "1A",
      ref := "PharmGKB CPIC Codeine/CYP2D6" }),
   (("Warfarin", .NORMAL),
    { dosing_recommendation := "Standard initiation: 5-10 mg daily. Adjust based on INR response.",
      strength := "Strong",
      clinical_guidance := "Normal metabolizers: Use standard dosing protocol with frequent INR monitoring.",
      monitoring := "INR monitoring at baseline, 2-7 days after initiation, then weekly x 1-2 weeks, then at 1-4 week intervals.",
      cpic_level := "1A",
      ref := "CPIC Warfarin/CYP2C9/VKORC1 Guidelines" }),
   (("Warfarin", .INTERMEDIATE),
    { dosing_recommendation := "Consider 25-50% dose reduction. Initiate lower dose (2.5-5 mg daily).",
      strength := "Moderate",
      clinical_guidance := "Intermediate metabolizers require dose adjustment; increased sensitivity to warfarin.",
      monitoring := "More frequent INR monitoring (2-3x weekly initially).",
      cpic_level := "2A",
      ref := "CPIC Warfarin/CYP2C9/VKORC1 Guidelines" }),
   (("Warfarin", .POOR),
    { dosing_recommendation := "Avoid or use with extreme caution - 40-60% dose reduction. Start 0.5-2 mg daily.",
      strength := "Strong",
      clinical_guidance := "Poor metabolizers have high bleeding risk at standard doses.",
      monitoring := "Very frequent INR monitoring (daily-every other day) until stable.",
      cpic_level := "1A",
      ref := "CPIC Warfarin/CYP2C9/VKORC1 Guidelines" }),
   (("Clopidogrel", .NORMAL),
    { dosing_recommendation := "Standard loading: 300-600 mg; Maintenance: 75 mg daily.",
      strength := "Strong",
      clinical_guidance := "Normal metabolizers: Standard dosing provides therapeutic antiplatelet effect.",
      monitoring := "Monitor for bleeding; assessment of antiplatelet response if high-risk patient.",
      cpic_level := "1A",
      ref := "CPIC Clopidogrel/CYP2C19 Guidelines" }),
   (("Clopidogrel", .INTERMEDIATE),
    { dosing_recommendation := "Consider alternative P2Y12 inhibitor (prasugrel, ticagrelor) or increase maintenance dose to 150 mg daily.",
      strength := "Moderate",
      clinical_guidance := "Intermediate metabolizers have reduced antiplatelet effect; may not achieve therapeutic levels.",
      monitoring := "Assess response; consider platelet function testing.",
      cpic_level := "2B",
      ref := "CPIC Clopidogrel/CYP2C19 Guidelines" }),
   (("Clopidogrel", .POOR),
    { dosing_recommendation := "NOT RECOMMENDED - Use alternative P2Y12 inhibitor (prasugrel 5-10 mg, ticagrelor 60-90 mg).",
      strength := "Strong",
      clinical_guidance := "Poor metabolizers have minimal antiplatelet effect; increased stent thrombosis risk.",
      monitoring := "If unable to use alternatives: High-intensity antiplatelet monitoring required.",
      cpic_level := "1A",
      ref := "CPIC Clopidogrel/CYP2C19 Guidelines" }),
   (("Simvastatin", .NORMAL),
    { dosing_recommendation := "Standard dosing: 10-40 mg daily. Maximum: 80 mg daily.",
      strength := "Strong",
      clinical_guidance := "Normal transporters allow standard statin dosing.",
      monitoring := "Monitor lipid levels at 4-12 weeks, then annually. Assess for muscle symptoms.",
      cpic_level := "1A",
      ref := "CPIC Simvastatin/SLCO1B1 Guidelines" }),
   (("Simvastatin", .INTERMEDIATE),
    { dosing_recommendation := "Consider dose reduction or alternative statin. Max 20 mg daily.",
      strength := "Moderate",
      clinical_guidance := "Reduced transporter function increases statin levels; myopathy risk increased.",
      monitoring := "Monitor CK levels baseline; assess for muscle pain/weakness.",
      cpic_level := "2A",
      ref := "CPIC Simvastatin/SLCO1B1 Guidelines" }),
   (("Simvastatin", .POOR),
    { dosing_recommendation := "Avoid simvastatin or use with extreme caution at lowest dose. Consider pravastatin/rosuvastatin.",
      strength := "Strong",
      clinical_guidance := "Impaired transporter = significantly elevated statin levels = high myopathy risk.",
      monitoring := "If used: Baseline CK, monthly monitoring x 3 months, then quarterly.",
      cpic_level := "1A",
      ref := "CPIC Simvastatin/SLCO1B1 Guidelines" }),
   (("Azathioprine", .NORMAL),
    { dosing_recommendation := "Standard dose dosing: 1-2.5 mg/kg/day in divided doses.",
      strength := "Strong",
      clinical_guidance := "Normal TPMT activity allows standard immunosuppressive dosing.",
      monitoring := "CBC with differential weekly x 8-12 weeks, then monthly. Monitor for myelosuppression.",
      cpic_level := "1A",
      ref := "CPIC Azathioprine/TPMT Guidelines" }),
   (("Azathioprine", .INTERMEDIATE),
    { dosing_recommendation := "Reduce dose to 25-50% of normal. Start low and titrate based on response.",
      strength := "Strong",
      clinical_guidance := "Intermediate activity: Increased accumulation of toxic 6-TGN metabolites.",
      monitoring := "CBC weekly x 4-6 weeks; monitor for infections, bleeding, severe anemia.",
      cpic_level := "1A",
      ref := "CPIC Azathioprine/TPMT Guidelines" }),
   (("Azathioprine", .POOR),
    { dosing_recommendation := "Strongly consider AVOIDING or use at 10% of normal dose if no alternatives.",
      strength := "Strong",
      clinical_guidance := "Very high risk of severe bone marrow toxicity and life-threatening infections.",
      monitoring := "If absolutely necessary: Daily CBC monitoring, consider G-CSF support.",
      cpic_level := "1A",
      ref := "CPIC Azathioprine/TPMT Guidelines" }),
   (("Fluorouracil", .NORMAL),
    { dosing_recommendation := "Standard chemotherapy dosing per protocol (typically 400-500 mg/m² IV).",
      strength := "Strong",
      clinical_guidance := "Normal DPYD activity allows standard 5-FU dosing.",
      monitoring := "Standard oncology monitoring: CBC weekly, blood cultures if febrile.",
      cpic_level := "1A",
      ref := "CPIC Fluorouracil/DPYD Guidelines" }),
   (("Fluorouracil", .INTERMEDIATE),
    { dosing_recommendation := "Reduce dose by 25-50%. Start at 50-75% of standard dose.",
      strength := "Moderate",
      clinical_guidance := "Partial DPYD deficiency increases 5-FU toxicity risk.",
      monitoring := "Close monitoring for severe toxicity: mucositis, myelosuppression, diarrhea.",
      cpic_level := "2A",
      ref := "CPIC Fluorouracil/DPYD Guidelines" }),
   (("Fluorouracil", .POOR),
    { dosing_recommendation := "NOT RECOMMENDED - Consider alternative chemotherapy if possible.",
      strength := "Strong",
      clinical_guidance := "High risk of severe, potentially fatal toxicity (mucositis, cardiotoxicity, sepsis).",
      monitoring := "If unavoidable: Intensive monitoring; consider dose reduction to 25-50% with close daily monitoring.",
      cpic_level := "1A",
      ref := "CPIC Fluorouracil/DPYD Guidelines" }),
   (("Metoprolol", .NORMAL),
    { dosing_recommendation := "Standard dosing: 25-190 mg daily in divided doses.",
      strength := "Strong",
      clinical_guidance := "Normal metabolizers: Standard beta-blocker dosing effective.",
      monitoring := "Monitor heart rate, blood pressure, exercise tolerance.",
      cpic_level := "2B",
      ref := "PharmGKB CYP2D6 Metabolizers" }),
   (("Metoprolol", .POOR),
    { dosing_recommendation := "Reduce dose by 25-50%. Consider alternative beta-blocker (atenolol, bisoprolol).",
      strength := "Moderate",
      clinical_guidance := "Poor metabolizers may accumulate metoprolol; increased side effects.",
      monitoring := "Monitor for bradycardia, hypotension, fatigue.",
      cpic_level := "2B",
      ref := "PharmGKB CYP2D6 Metabolizers" }),
   (("Amitriptyline", .NORMAL),
    { dosing_recommendation := "Standard initiation: 25-50 mg at bedtime. Typical maintenance: 75-150 mg daily.",
      strength := "Strong",
      clinical_guidance := "Normal metabolizers via both CYP2D6 and CYP2C19; standard dosing appropriate.",
      monitoring := "Monitor for anticholinergic effects, cardiac conduction, therapeutic response.",
      cpic_level := "2B",
      ref := "PharmGKB Tricyclic Antidepressants Metabolism" }),
   (("Amitriptyline", .POOR),
    { dosing_recommendation := "Start low (10-25 mg) at bedtime. Titrate slowly.",
      strength := "Moderate",
      clinical_guidance := "Poor metabolism in CYP2D6/CYP2C19 increases drug accumulation and side effects.",
      monitoring := "Close monitoring for anticholinergic effects, sedation, orthostatic hypotension, arrhythmias.",
      cpic_level := "2B",
      ref := "PharmGKB Tricyclic Antidepressants Metabolism" })]

/-- `get_cpic_dosing` from `cpic_dosing_rules.py`. -/
def get_cpic_dosing (drug_name : String) (phenotype : Phenotype) : Option CpicRule :=
  alistGet CPIC_DOSING_RULES (drug_name, phenotype)

/-! ## Drug recommendations (`drug_mapping.get_drug_recommendations`) -/

/-- `get_drug_recommendations` from `drug_mapping.py`, embedded as the
field-to-value association list of the returned dict (insertion order
preserved).  Every entry of `CPIC_DOSING_RULES` defines all six keys, so
each `cpic_rule.get(key, default)` is the corresponding field. -/
def get_drug_recommendations (drug_name : String)
    (phenos : String → Option Phenotype) : List (String × String) :=
  let canonical := normalize_drug_name drug_name
  let rl_expl := predict_drug_risk canonical phenos
  let relevant_genes := get_relevant_genes canonical
  let primary_phenotype : Option Phenotype :=
    match relevant_genes with
    | [] => none
    | primary_gene :: _ => phenos primary_gene
  let cpic_rule : Option CpicRule :=
    match primary_phenotype with
    | none => none
    | some ph => get_cpic_dosing canonical ph
  match cpic_rule with
  | some rule =>
    [("drug", canonical), ("risk_level", rl_expl.1.value),
     ("explanation", rl_expl.2),
     ("dosing_recommendation", rule.dosing_recommendation),
     ("strength", rule.strength),
     ("clinical_guidance", rule.clinical_guidance),
     ("monitoring", rule.monitoring),
     ("cpic_level", rule.cpic_level),
     ("reference", rule.ref)]
  | none =>
    [("drug", canonical), ("risk_level", rl_expl.1.value),
     ("explanation", rl_expl.2),
     ("dosing_recommendation", "Consult pharmacist for dosing guidance"),
     ("monitoring", "Monitor for adverse effects; adjust if needed"),
     ("cpic_level", "No data"),
     ("reference", "Manual review required")]

/-- The `except`-branch entry of the per-drug loop in
`RiskPredictor.predict_from_vcf`. -/
def error_drug_entry (drug msg : String) : List (String × String) :=
  [("drug", drug), ("risk_level", "ERROR"), ("explanation", msg),
   ("dosing_recommendation", "Consult pharmacist"),
   ("monitoring", "Manual review required")]

/-- The per-drug loop of `RiskPredictor.predict_from_vcf`, generic in the
per-drug step: each drug is processed independently and a failing step is
converted into an ERROR entry for that drug only.  The pipeline
instantiates `step drug = .ok (get_drug_recommendations drug phenos)`;
the `.error` case embeds the `except Exception` handler. -/
def drug_risks_loop (step : String → Except String (List (String × String)))
    (drugs : List String) : List (String × List (String × String)) :=
  drugs.map fun drug =>
    (drug,
     match step drug with
     | .ok rec => rec
     | .error msg => error_drug_entry drug msg)

/-! ## More Python string primitives -/

/-- Does `s` start with `pat`?  (Python `str.startswith`.) -/
def strStartsAux : List Char → List Char → Bool
  | _, [] => true
  | [], _ :: _ => false
  | c :: cs, p :: ps => c = p && strStartsAux cs ps

/-- Python `s.startswith(pat)`. -/
def strStarts (s pat : String) : Bool := strStartsAux s.data pat.data

/-- Auxiliary state machine for splitting on a single character. -/
def splitCharAux (sep : Char) : List Char → List Char → List String
  | [], cur => [⟨cur.reverse⟩]
  | c :: rest, cur =>
    if c = sep then ⟨cur.reverse⟩ :: splitCharAux sep rest []
    else splitCharAux sep rest (c :: cur)

/-- Python `s.split(sep)` for a one-character separator (empty pieces are
kept, as in Python). -/
def pySplitChar (sep : Char) (s : String) : List String :=
  splitCharAux sep s.data []

/-- Python `s.split(sep, 1)` when `sep` is known to occur: the part
before the first separator and everything after it. -/
def pySplitOnce (sep : Char) (s : String) : String × String :=
  let pre := s.data.takeWhile (fun c => ¬ (c = sep))
  (⟨pre⟩, ⟨s.data.drop (pre.length + 1)⟩)

/-- Decimal digits to a natural number; `none` on empty input or any
non-digit. -/
def digitsToNat? (cs : List Char) : Option Nat :=
  if cs = [] then none
  else
    cs.foldl
      (fun acc c =>
        acc.bind fun n => if c.isDigit then some (10 * n + (c.toNat - 48)) else none)
      (some 0)

/-- Python `int(s)` restricted to an optional sign and decimal digits
(the only integer forms appearing in a VCF POS column). -/
def pyInt? (s : String) : Option Int :=
  match s.data with
  | '-' :: rest => (digitsToNat? rest).map (fun n => -(n : Int))
  | '+' :: rest => (digitsToNat? rest).map (fun n => (n : Int))
  | cs => (digitsToNat? cs).map (fun n => (n : Int))

/-- Python `float(s)` restricted to an optional sign, an integer part and
an optional fractional part — the forms a VCF QUAL column uses.
(Exponents, `inf`/`nan` and surrounding whitespace, which Python also
accepts, never occur in the inputs examined here.) -/
def parseFloatQ (s : String) : Option ℚ :=
  let signRest : Bool × List Char :=
    match s.data with
    | '-' :: r => (true, r)
    | '+' :: r => (false, r)
    | r => (false, r)
  let rest := signRest.2
  let intPart := rest.takeWhile Char.isDigit
  let after := rest.drop intPart.length
  let mag : Option ℚ :=
    match after with
    | [] => (digitsToNat? intPart).map (fun n => (n : ℚ))
    | '.' :: frac =>
      if frac.all Char.isDigit ∧ ¬ (intPart = [] ∧ frac = []) then
        some ((((digitsToNat? intPart).getD 0 : ℚ)) +
          (((digitsToNat? frac).getD 0 : ℚ)) / ((10 : ℚ) ^ frac.length))
      else none
    | _ => none
  mag.map (fun q => if signRest.1 then -q else q)

/-! ## VCF parser (`vcf_parser.py`) -/

/-- `vcf_parser.Variant`.  An INFO value is either a string (`key=value`)
or a bare flag (Python stores `True`; embedded as `none`). -/
structure Variant where
  chrom : String
  pos : Int
  ref : String
  alt : String
  gene : String
  rs_id : Option String
  genotype : String
  quality : ℚ
  info : List (String × Option String)
deriving Repr

/-- `VCFParser.GENE_CHROMOSOMES`.  Note the key `"SLC01B1"` is spelled
with a digit zero. -/
def GENE_CHROMOSOMES : List (String × String) :=
  [("CYP2D6", "22"), ("CYP2C19", "10"), ("CYP2C9", "10"),
   ("SLC01B1", "12"), ("TPMT", "6"), ("DPYD", "1")]

/-- `VCFParser.KNOWN_VARIANTS` (rs-identifier to reference position, per
gene; the parser only consults the keys). -/
def KNOWN_VARIANTS : List (String × List (String × (String × Int))) :=
  [("CYP2D6",
    [("rs1065852", ("22", 42126499)), ("rs5030655", ("22", 42130692)),
     ("rs5030867", ("22", 42131889))]),
   ("CYP2C19",
    [("rs4244285", ("10", 96541616)), ("rs4986893", ("10", 96541857)),
     ("rs12248560", ("10", 96545410))]),
   ("CYP2C9",
    [("rs1799853", ("10", 94938996)), ("rs1057910", ("10", 94942758))]),
   ("SLC01B1",
    [("rs4149056", ("12", 21370535))]),
   ("TPMT",
    [("rs1142345", ("6", 18130722)), ("rs1800460", ("6", 18131875)),
     ("rs1800462", ("6", 18140475))]),
   ("DPYD",
    [("rs3918290", ("1", 97915614)), ("rs55886062", ("1", 98348885)),
     ("rs67376798", ("1", 98403947))])]

/-- `VCFParser._extract_gene`: exact rs-identifier match first, then
chromosome-number fallback (`chrom == n` or `chrom == "chr" + n`). -/
def extract_gene (chrom : String) (_pos : Int) (rs_id : String) : Option String :=
  match (if rs_id ≠ "." then
           KNOWN_VARIANTS.find? (fun gv => (alistGet gv.2 rs_id).isSome)
         else none) with
  | some gv => some gv.1
  | none =>
    match GENE_CHROMOSOMES.find?
        (fun gc => chrom == gc.2 || chrom == "chr" ++ gc.2) with
    | some gc => some gc.1
    | none => none

/-- `VCFParser._parse_info_field`.  (Python builds a dict, so a repeated
key would keep the last value; INFO keys are unique in the inputs
considered and the pipeline never reads this field.) -/
def parse_info_field (info_str : String) : List (String × Option String) :=
  if info_str = "." then []
  else
    (pySplitChar ';' info_str).map fun item =>
      if item.data.contains '=' then
        let kv := pySplitOnce '=' item
        (kv.1, some kv.2)
      else (item, none)

/-- `VCFParser._parse_genotype`. -/
def parse_genotype (fmt_str sample_str : String) : String :=
  if ¬ (fmt_str.data.contains ':') ∨ ¬ (sample_str.data.contains ':') then "0/0"
  else
    let format_fields := pySplitChar ':' fmt_str
    let sample_fields := pySplitChar ':' sample_str
    if format_fields.headD "" = "GT" then sample_fields.headD "" else "0/0"

/-- `VCFParser._parse_variant_line`.  `.ok none` embeds the source's
`return None` (line skipped); `.error` embeds the uncaught `ValueError`
from `int(pos)` on line 134, which is raised before the `try` block and
escapes `_parse`. -/
def parse_variant_line (line : String) : Except String (Option Variant) :=
  let fields := pySplitChar '\t' line
  if fields.length < 10 then .ok none
  else
    let chrom := fields.getD 0 ""
    let pos := fields.getD 1 ""
    let rs_id := fields.getD 2 ""
    let ref := fields.getD 3 ""
    let alt := fields.getD 4 ""
    let qual := fields.getD 5 ""
    match pyInt? pos with
    | none => .error ("invalid literal for int() with base 10: '" ++ pos ++ "'")
    | some posInt =>
      match extract_gene chrom posInt rs_id with
      | none => .ok none
      | some gene =>
        let info_dict := parse_info_field (fields.getD 7 "")
        let genotype := parse_genotype (fields.getD 8 "") (fields.getD 9 "")
        match (if qual ≠ "." then parseFloatQ qual else some 0) with
        | none => .ok none
        | some q =>
          .ok (some
            { chrom := chrom, pos := posInt, ref := ref, alt := alt,
              gene := gene,
              rs_id := if rs_id ≠ "." then some rs_id else none,
              genotype := genotype, quality := q, info := info_dict })

/-- The line loop of `VCFParser._parse` over the file's lines: strip,
skip blank lines, skip `##` metadata and `#CHROM`/other `#` lines,
parse the rest as variant lines.  (The metadata collected into
`self.header` is never consumed by the pipeline.) -/
def parse_lines : List String → Except String (List Variant)
  | [] => .ok []
  | rawLine :: rest =>
    let line := pyStrip rawLine
    if line = "" then parse_lines rest
    else if strStarts line "##" then parse_lines rest
    else if strStarts line "#CHROM" then parse_lines rest
    else if strStarts line "#" then parse_lines rest
    else
      match parse_variant_line line with
      | .error e => .error e
      | .ok none => parse_lines rest
      | .ok (some v) =>
        match parse_lines rest with
        | .error e => .error e
        | .ok vs => .ok (v :: vs)

/-- Append a variant to its gene's bucket (Python dict with list values,
insertion order preserved). -/
def add_to_group (g : String) (v : Variant) :
    List (String × List Variant) → List (String × List Variant)
  | [] => [(g, [v])]
  | (g0, vs) :: rest =>
    if g0 = g then (g0, vs ++ [v]) :: rest
    else (g0, vs) :: add_to_group g v rest

/-- `VCFParser.get_genes_present`: variants grouped by gene. -/
def get_genes_present (variants : List Variant) : List (String × List Variant) :=
  variants.foldl (fun acc v => add_to_group v.gene v acc) []

/-- `vcf_parser.validate_vcf` on the file's lines (`f.readline()` of an
empty file yields `""`; the FileNotFoundError branch concerns the
filesystem, not the content, and is outside this embedding). -/
def validate_vcf (lines : List String) : Bool × String :=
  let first_line := pyStrip (lines.headD "")
  if strStarts first_line "##fileformat=VCFv" then (true, "Valid VCF")
  else (false, "Invalid VCF header")

/-! ## Genotype calls (`risk_predictor.py`) -/

/-- The allele-index mapping inside `genotype_string_to_alleles`:
index "0" is the reference allele *1, anything else the variant
allele *2. -/
def idx_to_allele (t : String) : String := if t = "0" then "*1" else "*2"

/-- `RiskPredictor.genotype_string_to_alleles`.  When `'/'` occurs the
split has at least two parts, so the source's `except` guard (for
`IndexError`) is unreachable; `getD` mirrors the in-range indexing. -/
def genotype_string_to_alleles (gt_string : String) : Option (String × String) :=
  if gt_string = "" ∨ ¬ (gt_string.data.contains '/') then none
  else
    let parts := pySplitChar '/' gt_string
    some (idx_to_allele (parts.getD 0 ""), idx_to_allele (parts.getD 1 ""))

/-- The per-gene classification loop of `RiskPredictor.predict_from_vcf`:
builds the `genotypes` and `phenotypes` dicts.  A gene whose first
variant has an unusable genotype call gets neither a genotype nor a
phenotype; a gene may be mapped to `none` (Python `None`) when the legacy
fallback finds nothing. -/
def classify_genes :
    List (String × List Variant) →
      List (String × (String × String)) × List (String × Option Phenotype)
  | [] => ([], [])
  | (gene, variants) :: rest =>
    let tail := classify_genes rest
    match variants with
    | [] => tail
    | var :: _ =>
      match genotype_string_to_alleles var.genotype with
      | none => tail
      | some alleles =>
        ((gene, alleles) :: tail.1,
         (gene, genotype_to_phenotype gene alleles) :: tail.2)

/-- The phenotype dict viewed as the lookup `predict_drug_risk` performs:
an absent gene and a gene mapped to `None` are indistinguishable there. -/
def phenos_fun (phenotypes : List (String × Option Phenotype)) :
    String → Option Phenotype :=
  fun g => (alistGet phenotypes g).join

/-! ## Phenotype risk mapper (`phenotype_risk_mapper.py`) -/

/-- One value of the `PHENOTYPE_RISK_RULES` dict (and of the fallback
dicts built inside `predict_risk`); every entry defines all six keys. -/
structure RiskRule where
  risk : RiskLevel
  reason : String
  recommendation : String
  dose_adjustment : String
  monitoring : String
  cpic_evidence : String
deriving DecidableEq, Repr

/-- `PhenotypeRiskPredictor.PHENOTYPE_RISK_RULES` from
`phenotype_risk_mapper.py` (the file's literal text, mojibake included). -/
def PHENOTYPE_RISK_RULES : List (String × List (Phenotype × RiskRule)) :=
  [("Codeine",
    [(.ULTRA_RAPID,
      { risk := .TOXIC,
        reason := "Ultra-rapid CYP2D6 metabolizers produce excessively high morphine levels from codeine, resulting in overdose risk and potentially life-threatening side effects including respiratory depression and death",
        recommendation := "NOT RECOMMENDED - Use alternative analgesic (e.g., morphine, hydrocodone, tramadol, acetaminophen)",
        dose_adjustment := "0% - Do not use",
        monitoring := "If must use despite recommendation: Monitor closely for respiratory depression, oversedation, pinpoint pupils, and toxicity",
        cpic_evidence := "1A - Strong" }),
     (.RAPID,
      { risk := .ADJUST_DOSAGE,
        reason := "Rapid CYP2D6 metabolizers convert codeine to morphine faster than normal individuals, achieving therapeutic effect quickly but risking side effects",
        recommendation := "Use with caution; may achieve pain relief at standard doses but monitor closely for effects",
        dose_adjustment := "Consider standard dose initially, ready to adjust down",
        monitoring := "Monitor for increased side effects (dizziness, nausea, constipation, drowsiness). Watch for signs of excessive morphine production",
        cpic_evidence := "2A - Moderate" }),
     (.NORMAL,
      { risk := .SAFE,
        reason := "Normal CYP2D6 metabolizers convert codeine to morphine at typical rates, producing therapeutic analgesic effect with expected side effect profile",
        recommendation := "Use normal recommended dose (15-60 mg every 4-6 hours as needed for pain)",
        dose_adjustment := "100% - Standard dosing",
        monitoring := "Standard opioid monitoring for pain control and side effects",
        cpic_evidence := "1A - Strong" }),
     (.INTERMEDIATE,
      { risk := .ADJUST_DOSAGE,
        reason := "Intermediate CYP2D6 metabolizers have reduced morphine formation (~10-20% reduction), potentially reducing analgesic effectiveness",
        recommendation := "Consider higher than normal dose or shorter dosing intervals; monitor pain response",
        dose_adjustment := "120-150% of standard dose may be needed",
        monitoring := "Assess pain control; titrate dose based on response (may need 30-60 mg per dose)",
        cpic_evidence := "2A - Moderate" }),
     (.POOR,
      { risk := .INEFFECTIVE,
        reason := "Poor CYP2D6 metabolizers produce little to no morphine from codeine (5-10% conversion at best), making codeine ineffective for pain relief",
        recommendation := "NOT RECOMMENDED for pain control - Use alternative analgesic (morphine, oxycodone, hydromorphone, tramadol, or non-opioid options)",
        dose_adjustment := "0% - Do not use",
        monitoring := "If used despite recommendation: Monitor for complete lack of pain relief",
        cpic_evidence := "1A - Strong" }),
     (.NO_FUNCTION,
      { risk := .INEFFECTIVE,
        reason := "Complete loss of CYP2D6 function prevents morphine formation - codeine is completely ineffective as a prodrug",
        recommendation := "NOT RECOMMENDED - Use direct-acting opioid or alternative analgesic",
        dose_adjustment := "Not applicable",
        monitoring := "Not applicable",
        cpic_evidence := "1A - Strong" })]),
   ("Warfarin",
    [(.NORMAL,
      { risk := .SAFE,
        reason := "Normal CYP2C9 metabolizers metabolize warfarin at typical rates, allowing standard dosing with INR titration",
        recommendation := "Use standard initiation: 5-10 mg daily; adjust based on INR response",
        dose_adjustment := "100% - Standard dosing",
        monitoring := "INR monitoring: baseline, 2-7 days after initiation, weekly x 1-2 weeks, then every 1-4 weeks",
        cpic_evidence := "1A - Strong" }),
     (.INTERMEDIATE,
      { risk := .ADJUST_DOSAGE,
        reason := "Intermediate CYP2C9 metabolizers have reduced warfarin clearance, leading to increased drug exposure and bleeding risk",
        recommendation := "Consider 25-50% dose reduction; initiate with 2.5-5 mg daily",
        dose_adjustment := "50-75% of standard dose",
        monitoring := "More frequent INR monitoring (2-3x weekly initially until stable); target INR reached more slowly",
        cpic_evidence := "2A - Moderate" }),
     (.POOR,
      { risk := .ADJUST_DOSAGE,
        reason := "Poor CYP2C9 metabolizers have significantly impaired warfarin clearance, dramatically increasing anticoagulation effect and bleeding risk",
        recommendation := "Avoid or use with extreme caution - 40-60% dose reduction; start 0.5-2 mg daily",
        dose_adjustment := "40-60% dose reduction required",
        monitoring := "Very frequent INR monitoring (daily to every other day) until stable; watch closely for signs of bleeding (hematuria, epistaxis, petechiae)",
        cpic_evidence := "1A - Strong" })]),
   ("Clopidogrel",
    [(.NORMAL,
      { risk := .SAFE,
        reason := "Normal CYP2C19 metabolizers activate clopidogrel to active metabolite at normal rates, producing therapeutic antiplatelet effect",
        recommendation := "Use standard dosing: Loading 300-600 mg, maintenance 75 mg daily",
        dose_adjustment := "100% - Standard dosing",
        monitoring := "Monitor for bleeding; standard cardiovascular follow-up",
        cpic_evidence := "1A - Strong" }),
     (.INTERMEDIATE,
      { risk := .ADJUST_DOSAGE,
        reason := "Intermediate CYP2C19 metabolizers have reduced activation of clopidogrel, producing lower active metabolite and reduced antiplatelet effect",
        recommendation := "Consider alternative P2Y12 inhibitor (prasugrel 5-10 mg daily or ticagrelor 60-90 mg daily) OR increase clopidogrel to 150 mg daily",
        dose_adjustment := "200% increase (150 mg) if continuing clopidogrel",
        monitoring := "Assess antiplatelet response; platelet function testing helpful; higher stent thrombosis risk",
        cpic_evidence := "2B - Moderate" }),
     (.POOR,
      { risk := .INEFFECTIVE,
        reason := "Poor CYP2C19 metabolizers have minimal activation of clopidogrel (5-15% normal active metabolite production), resulting in minimal/no antiplatelet effect and high stent thrombosis risk",
        recommendation := "NOT RECOMMENDED - Use alternative P2Y12 inhibitor: Prasugrel (5-10 mg daily) or Ticagrelor (60-90 mg daily). These don't require CYP2C19 activation",
        dose_adjustment := "0% - Avoid clopidogrel",
        monitoring := "If unable to switch: Intensive antiplatelet monitoring; dual high-dose clopidogrel therapy not recommended due to high thrombotic events",
        cpic_evidence := "1A - Strong" })]),
   ("Simvastatin",
    [(.NORMAL,
      { risk := .SAFE,
        reason := "Normal SLCO1B1 transporters efficiently move simvastatin into hepatocytes for metabolism; standard dosing produces therapeutic LDL reduction",
        recommendation := "Use standard dosing: 10-40 mg daily (max 80 mg in non-asian populations)",
        dose_adjustment := "100% - Standard dosing",
        monitoring := "Monitor lipid levels at 4-12 weeks, then annually; assess for muscle symptoms (myalgia)",
        cpic_evidence := "1A - Strong" }),
     (.INTERMEDIATE,
      { risk := .ADJUST_DOSAGE,
        reason := "Intermediate SLCO1B1 function reduces hepatic uptake of simvastatin, increasing plasma levels and myopathy risk",
        recommendation := "Consider dose reduction or switch to pravastatin/rosuvastatin; if continuing: max 20 mg daily",
        dose_adjustment := "50% reduction maximum (20 mg)",
        monitoring := "Baseline CK level; assess for muscle pain/weakness monthly; repeat CK if symptomatic",
        cpic_evidence := "2A - Moderate" }),
     (.POOR,
      { risk := .ADJUST_DOSAGE,
        reason := "Poor SLCO1B1 function significantly impairs simvastatin hepatic uptake, dramatically increasing plasma levels and severe myopathy risk",
        recommendation := "Avoid simvastatin or use minimally (5-10 mg max). Consider alternatives: pravastatin, rosuvastatin (not SLCO1B1-dependent)",
        dose_adjustment := "75-90% reduction or avoid",
        monitoring := "If used: Baseline CK, monthly monitoring x 3 months, then quarterly. Watch closely for muscle symptoms",
        cpic_evidence := "1A - Strong" })]),
   ("Azathioprine",
    [(.NORMAL,
      { risk := .SAFE,
        reason := "Normal TPMT activity allows standard azathioprine dosing with therapeutic benefit for autoimmune/inflammatory conditions",
        recommendation := "Use standard dose: 1-2.5 mg/kg/day in divided doses",
        dose_adjustment := "100% - Standard dosing",
        monitoring := "CBC with differential weekly x 8-12 weeks, then monthly. Watch for myelosuppression, infections, bleeding",
        cpic_evidence := "1A - Strong" }),
     (.INTERMEDIATE,
      { risk := .ADJUST_DOSAGE,
        reason := "Intermediate TPMT activity causes accumulation of toxic 6-thioguanine nucleotides, increasing myelosuppression and infection risk",
        recommendation := "Reduce dose 25-50% of normal; start low and titrate carefully based on response",
        dose_adjustment := "50% reduction recommended",
        monitoring := "CBC weekly x 4-6 weeks, then every 2 weeks. Watch closely for infections, severe anemia, platelet drops",
        cpic_evidence := "1A - Strong" }),
     (.POOR,
      { risk := .TOXIC,
        reason := "Very poor TPMT activity leads to excessive 6-thioguanine accumulation causing severe bone marrow toxicity, life-threatening infections, and potentially fatal complications",
        recommendation := "Strongly consider avoiding or use at 10% of normal dose if no alternatives exist",
        dose_adjustment := "90% reduction or avoid entirely",
        monitoring := "If absolutely necessary: Daily CBC monitoring. Consider G-CSF (filgrastim) support. High-dose folinic acid rescue",
        cpic_evidence := "1A - Strong" })]),
   ("Fluorouracil",
    [(.NORMAL,
      { risk := .SAFE,
        reason := "Normal DPYD function metabolizes 5-FU efficiently; standard chemotherapy dosing produces expected efficacy with manageable toxicity",
        recommendation := "Use standard chemotherapy protocol dosing (typically 400-500 mg/mÂ² IV bolus or continuous)",
        dose_adjustment := "100% - Standard dosing per protocol",
        monitoring := "Standard oncology monitoring: CBC weekly, blood cultures if febrile, assess for mucositis/diarrhea",
        cpic_evidence := "1A - Strong" }),
     (.INTERMEDIATE,
      { risk := .ADJUST_DOSAGE,
        reason := "Intermediate DPYD deficiency (heterozygous) increases 5-FU toxicity risk; drug accumulation leads to severe mucositis, myelosuppression, diarrhea",
        recommendation := "Reduce dose 25-50%; start at 50-75% of standard dose",
        dose_adjustment := "50-75% initial dose; escalate cautiously if well tolerated",
        monitoring := "Close toxicity monitoring: mucositis grade, diarrhea (stool frequency), CBC weekly (severe drops possible)",
        cpic_evidence := "2A - Moderate" }),
     (.POOR,
      { risk := .TOXIC,
        reason := "DPYD deficiency (homozygous/compound heterozygous) prevents 5-FU metabolism, causing life-threatening toxicity: severe mucositis, cardiotoxicity, sepsis, potentially fatal outcomes",
        recommendation := "NOT RECOMMENDED for standard 5-FU therapy - Consider alternative chemotherapy regimens (e.g., capecitabine at reduced dose, or non-fluoropyrimidine agents)",
        dose_adjustment := "0% - Avoid 5-FU or use at 25-50% with intensive monitoring",
        monitoring := "If unavoidable: Daily hospital monitoring; ICU backup. Intensive supportive care (TPN, antibiotics, blood products)",
        cpic_evidence := "1A - Strong - MANDATORY testing recommended" })]),
   ("Metoprolol",
    [(.NORMAL,
      { risk := .SAFE,
        reason := "Normal CYP2D6 metabolizers metabolize metoprolol effectively; standard dosing achieves therapeutic effect",
        recommendation := "Use standard dosing: 25-190 mg daily in divided doses",
        dose_adjustment := "100% - Standard dosing",
        monitoring := "Monitor heart rate, blood pressure, exercise tolerance",
        cpic_evidence := "2B - Moderate" }),
     (.POOR,
      { risk := .ADJUST_DOSAGE,
        reason := "Poor CYP2D6 metabolizers have reduced metoprolol clearance, leading to drug accumulation and increased side effects (bradycardia, fatigue, hypotension)",
        recommendation := "Reduce dose 25-50%; consider alternative beta-blocker not metabolized by CYP2D6 (atenolol, bisoprolol, carvedilol)",
        dose_adjustment := "50-75% reduction",
        monitoring := "Monitor for bradycardia (< 50 bpm), hypotension, fatigue, dizziness",
        cpic_evidence := "2B - Moderate" })]),
   ("Amitriptyline",
    [(.NORMAL,
      { risk := .SAFE,
        reason := "Normal CYP2D6/CYP2C19 metabolizers metabolize amitriptyline at typical rates; standard dosing effective",
        recommendation := "Use standard initiation: 25-50 mg at bedtime; titrate to 75-150 mg daily maintenance",
        dose_adjustment := "100% - Standard dosing",
        monitoring := "Monitor for anticholinergic effects (dry mouth, constipation, urinary retention), cardiac effects",
        cpic_evidence := "2B - Moderate" }),
     (.POOR,
      { risk := .ADJUST_DOSAGE,
        reason := "Poor CYP2D6/CYP2C19 metabolizers accumulate amitriptyline, increasing anticholinergic and cardiac toxicity risk",
        recommendation := "Start low: 10-25 mg at bedtime; titrate slowly with close monitoring",
        dose_adjustment := "50-75% reduction; slow titration critical",
        monitoring := "Watch for anticholinergic side effects, orthostatic hypotension, arrhythmias, QT prolongation",
        cpic_evidence := "2B - Moderate" })])]

/-- `PhenotypeRiskPredictor.predict_risk`. -/
def predict_risk (drug : String) (phenotype : Phenotype) : RiskLevel × RiskRule :=
  match alistGet PHENOTYPE_RISK_RULES drug with
  | none =>
    (RiskLevel.UNKNOWN,
     { risk := .UNKNOWN,
       reason := "No pharmacogenomic data available for " ++ drug,
       recommendation := "Consult with clinical pharmacist or pharmacogenomic specialist",
       dose_adjustment := "Unknown",
       monitoring := "Standard monitoring",
       cpic_evidence := "No data" })
  | some drug_rules =>
    match alistGet drug_rules phenotype with
    | none =>
      (RiskLevel.UNKNOWN,
       { risk := .UNKNOWN,
         reason := "No mapping for " ++ phenotype.value ++ " on " ++ drug,
         recommendation := "Consult with clinical pharmacist",
         dose_adjustment := "Unknown",
         monitoring := "Standard monitoring",
         cpic_evidence := "No data" })
    | some rule => (rule.risk, rule)

/-! ## Detailed per-drug risk (`RiskPredictor.get_detailed_drug_risk`) -/

/-- The local `drug_gene_map` inside `get_detailed_drug_risk`. -/
def DETAILED_DRUG_GENE_MAP : List (String × String) :=
  [("Codeine", "CYP2D6"), ("Tramadol", "CYP2D6"), ("Metoprolol", "CYP2D6"),
   ("Amitriptyline", "CYP2D6"), ("Warfarin", "CYP2C9"),
   ("Clopidogrel", "CYP2C19"), ("Simvastatin", "SLCO1B1"),
   ("Azathioprine", "TPMT"), ("Fluorouracil", "DPYD")]

/-- The dict returned by `get_detailed_drug_risk`: either an error dict or
the detailed assessment. -/
inductive DetailedRisk where
  | err (msg : String)
  | ok (drug gene phenotype risk_level : String) (details : RiskRule)
deriving Repr

/-- `RiskPredictor.get_detailed_drug_risk` (total for enum phenotypes, so
the caller's inner `except` branch is unreachable). -/
def get_detailed_drug_risk (drug : String)
    (phenos : String → Option Phenotype) : DetailedRisk :=
  match alistGet DETAILED_DRUG_GENE_MAP drug with
  | none => .err ("No gene mapping for " ++ drug)
  | some gene =>
    match phenos gene with
    | none => .err ("No phenotype data for " ++ gene)
    | some phenotype =>
      let rd := predict_risk drug phenotype
      .ok drug gene phenotype.value rd.1.value rd.2

/-! ## JSON rendering (Python `json.dumps(..., indent=2)`)

The documents built by `_generate_json_output` contain only ASCII
strings on the paths evaluated here, so the `ensure_ascii` escaping of
non-ASCII characters is not modelled. -/

/-- JSON values; numbers carry the text Python's serializer prints for
them. -/
inductive Json where
  | str (s : String)
  | num (printed : String)
  | bool (b : Bool)
  | null
  | arr (items : List Json)
  | obj (fields : List (String × Json))
deriving Repr

/-- JSON string escaping for the characters that can occur in the
embedded tables. -/
def jsonEscapeChar (c : Char) : String :=
  if c = '"' then "\\\""
  else if c = '\\' then "\\\\"
  else if c = '\n' then "\\n"
  else if c = '\t' then "\\t"
  else if c = '\r' then "\\r"
  else String.mk [c]

def jsonEscape (s : String) : String :=
  String.join (s.data.map jsonEscapeChar)

def spacesJson (n : Nat) : String := ⟨List.replicate n ' '⟩

/-- `json.dumps(..., indent=2)` rendering at nesting level `k`.  The
first argument is structural fuel (the recursion depth); the fixed
document shape here is at most six levels deep, far below the fuel
supplied by `pyJsonDumps`. -/
def renderJson : Nat → Nat → Json → String
  | 0, _, _ => ""
  | fuel + 1, k, j =>
    match j with
    | .str s => "\"" ++ jsonEscape s ++ "\""
    | .num p => p
    | .bool b => if b then "true" else "false"
    | .null => "null"
    | .arr [] => "[]"
    | .arr items =>
      "[\n" ++
      pyJoin ",\n"
        (items.map (fun x => spacesJson (2 * (k + 1)) ++ renderJson fuel (k + 1) x)) ++
      "\n" ++ spacesJson (2 * k) ++ "]"
    | .obj [] => "\x7b\x7d"
    | .obj fields =>
      "\x7b\n" ++
      pyJoin ",\n"
        (fields.map (fun f =>
          spacesJson (2 * (k + 1)) ++ "\"" ++ jsonEscape f.1 ++ "\": " ++
          renderJson fuel (k + 1) f.2)) ++
      "\n" ++ spacesJson (2 * k) ++ "\x7d"

def pyJsonDumps (j : Json) : String := renderJson 32 0 j

/-! ## Structured output (`RiskPredictor._generate_json_output`) -/

/-- The ambient process state `_generate_json_output` reads:
`uuid.uuid4().hex` and `datetime.now().isoformat()` are fresh per
invocation; `hash` over strings is fixed per Python process
(`PYTHONHASHSEED`).  The LLM explainer is an external service (spec §6);
it is modelled as unavailable (`llm_available = False`), the documented
fallback mode, under which all `if self.llm_available ...` blocks are
skipped. -/
structure Env where
  uuidHex : String
  nowIso : String
  strHash : String → Nat

/-- Python `str.upper()` (ASCII data). -/
def pyUpper (s : String) : String := ⟨s.data.map Char.toUpper⟩

/-- Python slicing `s[:n]`. -/
def strTake (s : String) (n : Nat) : String := ⟨s.data.take n⟩

/-- Python `a or b` on strings: `b` when `a` is empty. -/
def pyOr (a b : String) : String := if a = "" then b else a

/-- Python `str((a, b))` for a pair of strings, as fed to `hash` for the
synthetic rsid. -/
def pyTupleStr (t : String × String) : String :=
  "('" ++ t.1 ++ "', '" ++ t.2 ++ "')"

/-- `risk_severity_map` in `_generate_json_output`. -/
def RISK_SEVERITY_MAP : List (String × String) :=
  [("Safe", "none"), ("Adjust Dosage", "moderate"), ("Toxic", "critical"),
   ("Ineffective", "high"), ("Unknown", "none")]

/-- `pheno_map` in `_generate_json_output`. -/
def PHENO_ABBREV_MAP : List (String × String) :=
  [("Ultra-Rapid Metabolizer", "URM"), ("Rapid Metabolizer", "RM"),
   ("Normal Metabolizer", "NM"), ("Intermediate Metabolizer", "IM"),
   ("Poor Metabolizer", "PM"), ("No Function", "NF")]

/-- The gene list consulted when choosing the primary gene in
`_generate_json_output` (again spelled with "SLC01B1"). -/
def JSON_PRIMARY_GENES : List String :=
  ["CYP2D6", "CYP2C19", "CYP2C9", "TPMT", "SLC01B1", "DPYD"]

/-- One element of `risk_assessments` in `_generate_json_output` (one
requested drug), with the LLM collaborator unavailable so every
`llm_...` branch takes its fallback. -/
def drug_entry_json (env : Env)
    (genotypes : List (String × (String × String)))
    (phenotypes : List (String × Option Phenotype))
    (detailed_risks : List (String × DetailedRisk))
    (patient_id : String)
    (drug : String) (risk_rec : List (String × String)) : Json :=
  let risk_level := (alistGet risk_rec "risk_level").getD "Unknown"
  let sev := (alistGet RISK_SEVERITY_MAP risk_level).getD "none"
  -- Python floats 0.95 / 0.5, carried with their printed representation
  let confidence := if risk_level ≠ "Unknown" then "0.95" else "0.5"
  let primary := genotypes.find? (fun gv => JSON_PRIMARY_GENES.contains gv.1)
  let primary_gene : Option String := primary.map (·.1)
  let diplotype : Option String := primary.map (fun gv => gv.2.1 ++ "/" ++ gv.2.2)
  let primary_phenotype :=
    match primary_gene with
    | none => "Unknown"
    | some g =>
      match alistGet phenotypes g with
      | some (some ph) => (alistGet PHENO_ABBREV_MAP ph.value).getD "Unknown"
      | _ => "Unknown"
  let detected_variants : List Json := genotypes.map (fun gv =>
    Json.obj
      [("rsid", .str ("rs" ++ Nat.repr (env.strHash (pyTupleStr gv.2) % 10000000))),
       ("gene", .str gv.1),
       ("genotype", .str (gv.2.1 ++ "/" ++ gv.2.2)),
       ("phenotype", .str
         (match alistGet phenotypes gv.1 with
          | some (some ph) => ph.value
          | _ => "Unknown"))])
  let ddata := alistGet detailed_risks drug
  let detailed_recommendation :=
    match ddata with
    | some (.ok _ _ _ _ details) => details.recommendation
    | _ => ""
  let dose_adjustment :=
    match ddata with
    | some (.ok _ _ _ _ details) => details.dose_adjustment ++ "% adjustment"
    | _ => "Standard dosing"
  let cpic_evidence :=
    match ddata with
    | some (.ok _ _ _ _ details) => details.cpic_evidence
    | _ => "No data"
  let explanation := (alistGet risk_rec "explanation").getD ""
  let monitoring_guidance := (alistGet risk_rec "monitoring").getD ""
  let dosing_recommendation := "Consult pharmacist"
  Json.obj
    [("patient_id", .str patient_id),
     ("drug", .str drug),
     ("timestamp", .str env.nowIso),
     ("risk_assessment", .obj
       [("risk_label", .str risk_level),
        ("confidence_score", .num confidence),
        ("severity", .str sev)]),
     ("cpic_guidelines", .obj
       [("recommendation_level", .str ((alistGet risk_rec "cpic_level").getD "No data")),
        ("strength_of_recommendation", .str ((alistGet risk_rec "strength").getD "Moderate")),
        ("clinical_guidance", .str ((alistGet risk_rec "clinical_guidance").getD "")),
        ("cpic_evidence", .str cpic_evidence),
        ("reference", .str ((alistGet risk_rec "reference").getD "Manual review required"))]),
     ("pharmacogenomic_profile", .obj
       [("primary_gene", .str (primary_gene.getD "Unknown")),
        ("diplotype", .str (diplotype.getD "*1/*1")),
        ("phenotype", .str primary_phenotype),
        ("detected_variants", .arr detected_variants)]),
     ("clinical_recommendation", .obj
       [("summary", .str (pyOr detailed_recommendation explanation)),
        ("dosing", .str
          (if dosing_recommendation ≠ "Consult pharmacist" then dosing_recommendation
           else pyOr dose_adjustment ((alistGet risk_rec "dosing_recommendation").getD ""))),
        ("monitoring", .str (pyOr monitoring_guidance ((alistGet risk_rec "monitoring").getD "")))]),
     ("llm_generated_explanation", .obj
       [("variant_interpretation", .str ""),
        ("risk_explanation", .str ""),
        ("clinical_impact", .str
          ((primary_gene.getD "None") ++ " (" ++ primary_phenotype ++ "): " ++ risk_level)),
        ("dosing_recommendation", .str dosing_recommendation),
        ("monitoring_guidance", .str monitoring_guidance),
        ("source", .str "Rule-based fallback")]),
     ("quality_metrics", .obj
       [("vcf_parsing_success", .bool true),
        ("genes_analyzed", .arr (genotypes.map (fun gv => Json.str gv.1))),
        ("variant_count", .num (Nat.repr genotypes.length)),
        ("data_completeness", .str "standard"),
        ("algorithm_version", .str "CPIC-aligned-v2"),
        ("llm_used", .bool false),
        ("llm_provider", .null),
        ("llm_model", .null),
        ("llm_cached", .bool false),
        ("explanation_quality", .str "rule-based")])]

/-- `RiskPredictor._generate_json_output`: a fresh random patient id and
the current timestamp are stamped into every drug entry. -/
def generate_json_output (env : Env)
    (genotypes : List (String × (String × String)))
    (phenotypes : List (String × Option Phenotype))
    (drug_risks : List (String × List (String × String)))
    (detailed_risks : List (String × DetailedRisk)) : String :=
  let patient_id := "PATIENT_" ++ pyUpper (strTake env.uuidHex 8)
  pyJsonDumps
    (.arr (drug_risks.map (fun dr =>
      drug_entry_json env genotypes phenotypes detailed_risks patient_id dr.1 dr.2)))

/-! ## Pipeline orchestrator (`RiskPredictor.predict_from_vcf`) -/

/-- The dict returned by `predict_from_vcf` (the failure dict carries no
`json_output` key, embedded as `none`). -/
structure PredictResult where
  success : Bool
  errors : List String
  genotypes : List (String × (String × String))
  phenotypes : List (String × Option Phenotype)
  drug_risks : List (String × List (String × String))
  detailed_risks : List (String × DetailedRisk)
  json_output : Option String
deriving Repr

/-- `RiskPredictor.predict_from_vcf` on the uploaded file's lines.  The
outer `except` catches exactly the parse exceptions (`.error`); the
per-drug loop is `drug_risks_loop` instantiated with the total
`get_drug_recommendations`, and `detailed_risks` is built in the same
pass over the request list (`get_detailed_drug_risk` is total, so its
inner `except` never fires). -/
def predict_from_vcf (env : Env) (lines : List String) (drugs : List String) :
    PredictResult :=
  match parse_lines lines with
  | .error e =>
    { success := false, errors := [e], genotypes := [], phenotypes := [],
      drug_risks := [], detailed_risks := [], json_output := none }
  | .ok variants =>
    let variants_by_gene := get_genes_present variants
    let gp := classify_genes variants_by_gene
    let phenos := phenos_fun gp.2
    let drug_risks :=
      drug_risks_loop (fun d => .ok (get_drug_recommendations d phenos)) drugs
    let detailed_risks := drugs.map (fun d => (d, get_detailed_drug_risk d phenos))
    { success := true, errors := [], genotypes := gp.1, phenotypes := gp.2,
      drug_risks := drug_risks, detailed_risks := detailed_risks,
      json_output :=
        some (generate_json_output env gp.1 gp.2 drug_risks detailed_risks) }

/-! ## Severity order (spec §4.4): specification-side aggregation -/

/-- Severity rank of a verdict under the fixed precedence
TOXIC > INEFFECTIVE > ADJUST_DOSAGE > SAFE > UNKNOWN. -/
def severity : RiskLevel → Nat
  | .TOXIC => 4
  | .INEFFECTIVE => 3
  | .ADJUST_DOSAGE => 2
  | .SAFE => 1
  | .UNKNOWN => 0

/-- The more severe of two verdicts. -/
def moreSevere (a b : RiskLevel) : RiskLevel :=
  if severity a < severity b then b else a

/-- The most severe verdict present in a list (UNKNOWN when empty).
This is the specification's reading of "the overall verdict is the most
severe one present"; it is defined independently of the source's
hierarchy scan and proved equal to it. -/
def mostSevere : List RiskLevel → RiskLevel
  | [] => .UNKNOWN
  | r :: rest => moreSevere (mostSevere rest) r

/-! ## Helper lemmas -/

theorem alistGet_mem {α β : Type} [DecidableEq α] {l : List (α × β)} {k : α} {v : β}
    (h : alistGet l k = some v) : (k, v) ∈ l := by
  induction l with
  | nil => simp [alistGet] at h
  | cons e t ih =>
    obtain ⟨k1, v1⟩ := e
    by_cases hk : k1 = k
    · subst hk
      simp [alistGet] at h
      subst h
      exact List.mem_cons_self _ _
    · simp [alistGet, hk] at h
      exact List.mem_cons_of_mem _ (ih h)

theorem total_activity_comm (tbl : List (String × ℚ)) (a b : String) :
    total_activity tbl (a, b) = total_activity tbl (b, a) := by
  simp [total_activity, add_comm]

theorem convert_diplotype_comm (gene : String) (a b : String) :
    convert_diplotype_to_phenotype gene (a, b) =
      convert_diplotype_to_phenotype gene (b, a) := by
  unfold convert_diplotype_to_phenotype
  cases allele_definitions gene with
  | none => rfl
  | some tbl =>
    show activity_to_phenotype gene (total_activity tbl (a, b)) =
      activity_to_phenotype gene (total_activity tbl (b, a))
    rw [total_activity_comm]

/-- A legacy table never lists a heterozygote in both orders with different
phenotypes: any entry whose key is the reverse of another entry's key
carries the same phenotype. -/
abbrev symCompat (m : List ((String × String) × Phenotype)) : Prop :=
  ∀ e1 ∈ m, ∀ e2 ∈ m, e1.1.1 = e2.1.2 → e1.1.2 = e2.1.1 → e1.2 = e2.2

theorem legacy_tables_symCompat : ∀ gm ∈ GENOTYPE_PHENOTYPE_MAP, symCompat gm.2 := by
  decide

/-- The CYP2D6 threshold ladder, as an explicit 5-band step function. -/
theorem activity_to_phenotype_cyp2d6 (x : ℚ) :
    activity_to_phenotype "CYP2D6" x =
      (if x ≥ 1.75 then Phenotype.ULTRA_RAPID
       else if x ≥ 1.25 then Phenotype.RAPID
       else if x > 1.0 then Phenotype.NORMAL
       else if x ≥ 0.25 then Phenotype.INTERMEDIATE
       else Phenotype.POOR) := by
  simp [activity_to_phenotype]

/-- The CYP2C19 threshold ladder, as an explicit 3-band step function. -/
theorem activity_to_phenotype_cyp2c19 (x : ℚ) :
    activity_to_phenotype "CYP2C19" x =
      (if x ≥ 1.5 then Phenotype.NORMAL
       else if x ≥ 0.5 then Phenotype.INTERMEDIATE
       else Phenotype.POOR) := by
  simp [activity_to_phenotype]

theorem lookup2_comm {m : List ((String × String) × Phenotype)}
    (hs : symCompat m) (a b : String) :
    (match alistGet m (a, b) with
     | some p => some p
     | none => alistGet m (b, a)) =
    (match alistGet m (b, a) with
     | some p => some p
     | none => alistGet m (a, b)) := by
  cases h1 : alistGet m (a, b) with
  | none => cases h2 : alistGet m (b, a) <;> simp
  | some p =>
    cases h2 : alistGet m (b, a) with
    | none => simp
    | some q =>
      have hpq : p = q := hs _ (alistGet_mem h1) _ (alistGet_mem h2) rfl rfl
      simp [hpq]

theorem legacy_phenotype_lookup_comm (gene : String) (a b : String) :
    legacy_phenotype_lookup gene (a, b) = legacy_phenotype_lookup gene (b, a) := by
  unfold legacy_phenotype_lookup
  cases hg : alistGet GENOTYPE_PHENOTYPE_MAP gene with
  | none => rfl
  | some m =>
    have hs : symCompat m := legacy_tables_symCompat _ (alistGet_mem hg)
    exact lookup2_comm hs a b

/-- Each per-gene allele activity table only contains activity units in
the closed interval `[0, 1]`. -/
theorem allele_definitions_bounded (gene : String) (tbl : List (String × ℚ))
    (h : allele_definitions gene = some tbl) :
    ∀ e ∈ tbl, 0 ≤ e.2 ∧ e.2 ≤ 1 := by
  unfold allele_definitions at h
  simp only [alistGet] at h
  split_ifs at h <;>
    (injection h with h'; subst h';
     norm_num [CYP2D6_ALLELES, CYP2C19_ALLELES, CYP2C9_ALLELES, TPMT_ALLELES,
       SLCO1B1_ALLELES, DPYD_ALLELES, CYP3A4_ALLELES, CYP3A5_ALLELES])

theorem get_activity_bounds {tbl : List (String × ℚ)}
    (hb : ∀ e ∈ tbl, 0 ≤ e.2 ∧ e.2 ≤ 1) (a : String) :
    0 ≤ get_activity tbl a ∧ get_activity tbl a ≤ 1 := by
  unfold get_activity
  cases hfind : alistGet tbl a with
  | none => simp
  | some v => simpa using hb _ (alistGet_mem hfind)

theorem severity_le_mostSevere {l : List RiskLevel} {r : RiskLevel} (hr : r ∈ l) :
    severity r ≤ severity (mostSevere l) := by
  induction l with
  | nil => cases hr
  | cons x rest ih =>
    simp only [mostSevere]
    rcases List.mem_cons.mp hr with h | h
    · subst h
      unfold moreSevere
      split_ifs with hlt
      · exact le_refl _
      · omega
    · have hrec := ih h
      unfold moreSevere
      split_ifs with hlt
      · omega
      · exact hrec

theorem mostSevere_mem (l : List RiskLevel) :
    mostSevere l ∈ l ∨ mostSevere l = RiskLevel.UNKNOWN := by
  induction l with
  | nil => right; rfl
  | cons x rest ih =>
    simp only [mostSevere]
    unfold moreSevere
    split_ifs
    · left; exact List.mem_cons_self _ _
    · rcases ih with h | h
      · left; exact List.mem_cons_of_mem _ h
      · right; exact h

/-- The linear scan over `risk_hierarchy` in `predict_drug_risk` returns
exactly the most severe verdict present. -/
theorem hierarchy_scan_eq_mostSevere (l : List RiskLevel) :
    ((risk_hierarchy.find? (fun r => l.contains r)).getD RiskLevel.UNKNOWN) =
      mostSevere l := by
  have hmem := mostSevere_mem l
  have hnotmem : ∀ r : RiskLevel,
      severity (mostSevere l) < severity r → r ∉ l := by
    intro r hsev hr
    have := severity_le_mostSevere hr
    omega
  cases hm : mostSevere l with
  | TOXIC =>
    have hT : RiskLevel.TOXIC ∈ l := by
      rcases hmem with h | h
      · rwa [hm] at h
      · rw [hm] at h; cases h
    simp [risk_hierarchy, List.find?, hT]
  | INEFFECTIVE =>
    have hI : RiskLevel.INEFFECTIVE ∈ l := by
      rcases hmem with h | h
      · rwa [hm] at h
      · rw [hm] at h; cases h
    have hnT : RiskLevel.TOXIC ∉ l := hnotmem _ (by rw [hm]; decide)
    simp [risk_hierarchy, List.find?, hnT, hI]
  | ADJUST_DOSAGE =>
    have hA : RiskLevel.ADJUST_DOSAGE ∈ l := by
      rcases hmem with h | h
      · rwa [hm] at h
      · rw [hm] at h; cases h
    have hnT : RiskLevel.TOXIC ∉ l := hnotmem _ (by rw [hm]; decide)
    have hnI : RiskLevel.INEFFECTIVE ∉ l := hnotmem _ (by rw [hm]; decide)
    simp [risk_hierarchy, List.find?, hnT, hnI, hA]
  | SAFE =>
    have hS : RiskLevel.SAFE ∈ l := by
      rcases hmem with h | h
      · rwa [hm] at h
      · rw [hm] at h; cases h
    have hnT : RiskLevel.TOXIC ∉ l := hnotmem _ (by rw [hm]; decide)
    have hnI : RiskLevel.INEFFECTIVE ∉ l := hnotmem _ (by rw [hm]; decide)
    have hnA : RiskLevel.ADJUST_DOSAGE ∉ l := hnotmem _ (by rw [hm]; decide)
    simp [risk_hierarchy, List.find?, hnT, hnI, hnA, hS]
  | UNKNOWN =>
    have hnT : RiskLevel.TOXIC ∉ l := hnotmem _ (by rw [hm]; decide)
    have hnI : RiskLevel.INEFFECTIVE ∉ l := hnotmem _ (by rw [hm]; decide)
    have hnA : RiskLevel.ADJUST_DOSAGE ∉ l := hnotmem _ (by rw [hm]; decide)
    have hnS : RiskLevel.SAFE ∉ l := hnotmem _ (by rw [hm]; decide)
    by_cases hU : RiskLevel.UNKNOWN ∈ l <;>
      simp [risk_hierarchy, List.find?, hnT, hnI, hnA, hnS, hU]

set_option maxHeartbeats 2000000 in
/-- Alias normalization is idempotent: every canonical name produced by
the alias table resolves to itself. -/
theorem normalize_drug_name_idem (s : String) :
    normalize_drug_name (normalize_drug_name s) = normalize_drug_name s := by
  unfold normalize_drug_name
  cases h : alistGet DRUG_ALIASES (pyStrip (pyLower s)) with
  | none => simp [h]
  | some c =>
    have hc : alistGet DRUG_ALIASES (pyStrip (pyLower c)) = some c := by
      have hmem := alistGet_mem h
      have hall : ∀ e ∈ DRUG_ALIASES,
          alistGet DRUG_ALIASES (pyStrip (pyLower e.2)) = some e.2 := by decide
      exact hall _ hmem
    simp [h, hc]

theorem get_relevant_genes_normalize (s : String) :
    get_relevant_genes (normalize_drug_name s) = get_relevant_genes s := by
  unfold get_relevant_genes
  rw [normalize_drug_name_idem]

/-! ## Claims -/

set_option maxHeartbeats 2000000 in
/-- C1: for every drug (in particular every multi-gene drug) and every
gene-to-phenotype assignment, `predict_drug_risk` returns the most severe
of the per-gene verdicts under TOXIC > INEFFECTIVE > ADJUST_DOSAGE >
SAFE > UNKNOWN; and whenever the per-gene verdicts include both SAFE and
TOXIC, the most severe one is TOXIC. -/
theorem c1_multi_gene_most_severe :
    (∀ (drug : String) (phenos : String → Option Phenotype),
        2 ≤ (get_relevant_genes drug).length →
        (predict_drug_risk drug phenos).1 =
          mostSevere (per_gene_verdicts drug phenos)) ∧
    (∀ l : List RiskLevel, RiskLevel.SAFE ∈ l → RiskLevel.TOXIC ∈ l →
        mostSevere l = RiskLevel.TOXIC) := by
  constructor
  · intro drug phenos _h
    simp only [predict_drug_risk, per_gene_verdicts]
    split_ifs with h1 h2
    · rw [h1]
      rfl
    · rw [h2]
      rfl
    · exact hierarchy_scan_eq_mostSevere _
  · intro l hS hT
    have h4 := severity_le_mostSevere hT
    cases hms : mostSevere l <;>
      first
      | rfl
      | (rw [hms] at h4; simp [severity] at h4)

/-- Witness for `c1_multi_gene_most_severe`: the two-gene drug
Amitriptyline with no phenotype data, and a verdict list containing both
SAFE and TOXIC. -/
theorem c1_multi_gene_most_severe_witness :
    (predict_drug_risk "Amitriptyline" (fun _ => none)).1 =
      mostSevere (per_gene_verdicts "Amitriptyline" (fun _ => none)) ∧
    mostSevere [RiskLevel.SAFE, RiskLevel.TOXIC] = RiskLevel.TOXIC :=
  ⟨c1_multi_gene_most_severe.1 "Amitriptyline" (fun _ => none) (by decide),
   c1_multi_gene_most_severe.2 [RiskLevel.SAFE, RiskLevel.TOXIC]
     (by decide) (by decide)⟩

set_option maxRecDepth 100000 in
/-- C3 counterexample: two invocations of `predict_from_vcf` on identical
file bytes and drug list, differing only in the per-invocation
`uuid.uuid4()` value, produce different `json_output` strings — the
random patient id (and the timestamp) are stamped into the output, so it
is not byte-identical across runs. -/
theorem c3_counterexample :
    (predict_from_vcf
        ⟨"aaaaaaaaaaaaaaaaaaaaaaaaaaaaaaaa", "2024-01-01T00:00:00.000000", fun _ => 0⟩
        ["##fileformat=VCFv4.2"] ["Aspirin"]).json_output ≠
    (predict_from_vcf
        ⟨"bbbbbbbbbbbbbbbbbbbbbbbbbbbbbbbb", "2024-01-01T00:00:00.000000", fun _ => 0⟩
        ["##fileformat=VCFv4.2"] ["Aspirin"]).json_output := by
  decide

/-- C3 (amended): the classification content of `predict_from_vcf` —
success flag, errors, genotypes, phenotypes, drug risks and detailed
risks — is a pure function of the file lines and the drug list,
independent of the ambient state (uuid, clock, hash seed); and two
invocations under identical ambient state give identical results,
`json_output` included.  Only the `json_output` string depends on the
per-invocation uuid and timestamp. -/
theorem c3_deterministic_modulo_env :
    ∀ (env1 env2 : Env) (lines drugs : List String),
      (predict_from_vcf env1 lines drugs).success =
          (predict_from_vcf env2 lines drugs).success ∧
      (predict_from_vcf env1 lines drugs).errors =
          (predict_from_vcf env2 lines drugs).errors ∧
      (predict_from_vcf env1 lines drugs).genotypes =
          (predict_from_vcf env2 lines drugs).genotypes ∧
      (predict_from_vcf env1 lines drugs).phenotypes =
          (predict_from_vcf env2 lines drugs).phenotypes ∧
      (predict_from_vcf env1 lines drugs).drug_risks =
          (predict_from_vcf env2 lines drugs).drug_risks ∧
      (predict_from_vcf env1 lines drugs).detailed_risks =
          (predict_from_vcf env2 lines drugs).detailed_risks ∧
      (env1 = env2 →
        predict_from_vcf env1 lines drugs = predict_from_vcf env2 lines drugs) := by
  intro env1 env2 lines drugs
  refine ⟨?_, ?_, ?_, ?_, ?_, ?_, fun he => by rw [he]⟩ <;>
    cases h : parse_lines lines <;> simp [predict_from_vcf, h]

/-- Witness for `c3_deterministic_modulo_env` at a concrete file, drug
list and pair of ambient states. -/
theorem c3_deterministic_modulo_env_witness :
    (predict_from_vcf
        ⟨"aaaaaaaaaaaaaaaaaaaaaaaaaaaaaaaa", "2024-01-01T00:00:00.000000", fun _ => 0⟩
        ["##fileformat=VCFv4.2"] ["Aspirin"]).drug_risks =
      (predict_from_vcf
        ⟨"bbbbbbbbbbbbbbbbbbbbbbbbbbbbbbbb", "2024-01-01T00:00:00.000000", fun _ => 0⟩
        ["##fileformat=VCFv4.2"] ["Aspirin"]).drug_risks ∧
    predict_from_vcf
        ⟨"cccccccccccccccccccccccccccccccc", "2025-06-30T12:00:00.000000", fun _ => 7⟩
        ["##fileformat=VCFv4.2"] ["Aspirin"] =
      predict_from_vcf
        ⟨"cccccccccccccccccccccccccccccccc", "2025-06-30T12:00:00.000000", fun _ => 7⟩
        ["##fileformat=VCFv4.2"] ["Aspirin"] :=
  ⟨(c3_deterministic_modulo_env
      ⟨"aaaaaaaaaaaaaaaaaaaaaaaaaaaaaaaa", "2024-01-01T00:00:00.000000", fun _ => 0⟩
      ⟨"bbbbbbbbbbbbbbbbbbbbbbbbbbbbbbbb", "2024-01-01T00:00:00.000000", fun _ => 0⟩
      ["##fileformat=VCFv4.2"] ["Aspirin"]).2.2.2.2.1,
   (c3_deterministic_modulo_env
      ⟨"cccccccccccccccccccccccccccccccc", "2025-06-30T12:00:00.000000", fun _ => 7⟩
      ⟨"cccccccccccccccccccccccccccccccc", "2025-06-30T12:00:00.000000", fun _ => 7⟩
      ["##fileformat=VCFv4.2"] ["Aspirin"]).2.2.2.2.2.2 rfl⟩

/-- C7 counterexample: a file whose first line is a plain data line (no
`##fileformat=VCFv` declaration) is rejected by `validate_vcf`, yet
`predict_from_vcf` — which never calls `validate_vcf` — still succeeds on
it and produces a per-drug result and a parsed genotype, contradicting
"total failure rather than any per-drug results". -/
theorem c7_counterexample :
    validate_vcf ["22\t42126499\trs1065852\tC\tT\t100\tPASS\t.\tGT:DP\t0/1:30"] =
      (false, "Invalid VCF header") ∧
    (predict_from_vcf
        ⟨"aaaaaaaaaaaaaaaaaaaaaaaaaaaaaaaa", "2024-01-01T00:00:00.000000", fun _ => 0⟩
        ["22\t42126499\trs1065852\tC\tT\t100\tPASS\t.\tGT:DP\t0/1:30"]
        ["Aspirin"]).success = true ∧
    (predict_from_vcf
        ⟨"aaaaaaaaaaaaaaaaaaaaaaaaaaaaaaaa", "2024-01-01T00:00:00.000000", fun _ => 0⟩
        ["22\t42126499\trs1065852\tC\tT\t100\tPASS\t.\tGT:DP\t0/1:30"]
        ["Aspirin"]).drug_risks.map Prod.fst = ["Aspirin"] ∧
    (predict_from_vcf
        ⟨"aaaaaaaaaaaaaaaaaaaaaaaaaaaaaaaa", "2024-01-01T00:00:00.000000", fun _ => 0⟩
        ["22\t42126499\trs1065852\tC\tT\t100\tPASS\t.\tGT:DP\t0/1:30"]
        ["Aspirin"]).genotypes = [("CYP2D6", ("*1", "*2"))] := by
  refine ⟨by decide, by decide, by decide, by decide⟩

/-- C7 (amended): `validate_vcf` does reject every file whose stripped
first line lacks the `##fileformat=VCFv` declaration, with a format
error; but the pipeline itself performs no header check, and yields the
total-failure record exactly when line parsing raises (e.g. a
non-integer POS field). -/
theorem c7_header_check_scope :
    (∀ lines : List String,
        strStarts (pyStrip (lines.headD "")) "##fileformat=VCFv" = false →
        validate_vcf lines = (false, "Invalid VCF header")) ∧
    (∀ (env : Env) (lines drugs : List String) (e : String),
        parse_lines lines = .error e →
        predict_from_vcf env lines drugs =
          { success := false, errors := [e], genotypes := [], phenotypes := [],
            drug_risks := [], detailed_risks := [], json_output := none }) := by
  constructor
  · intro lines h
    cases lines <;> simp_all [validate_vcf]
  · intro env lines drugs e h
    simp [predict_from_vcf, h]

/-- Witness for `c7_header_check_scope`: the rejection at a concrete
headerless file, and total failure at a file whose POS field is not an
integer. -/
theorem c7_header_check_scope_witness :
    validate_vcf ["CHROM\tPOS"] = (false, "Invalid VCF header") ∧
    (predict_from_vcf
        ⟨"aaaaaaaaaaaaaaaaaaaaaaaaaaaaaaaa", "2024-01-01T00:00:00.000000", fun _ => 0⟩
        ["22\tabc\trs1065852\tC\tT\t.\tPASS\t.\tGT:DP\t0/1:30"] ["Codeine"]).success =
      false :=
  ⟨c7_header_check_scope.1 ["CHROM\tPOS"] (by decide),
   by rw [c7_header_check_scope.2
       ⟨"aaaaaaaaaaaaaaaaaaaaaaaaaaaaaaaa", "2024-01-01T00:00:00.000000", fun _ => 0⟩
       ["22\tabc\trs1065852\tC\tT\t.\tPASS\t.\tGT:DP\t0/1:30"] ["Codeine"]
       "invalid literal for int() with base 10: 'abc'" rfl]⟩

/-- C4: a drug name found in neither the alias table nor the drug-gene map
resolves to verdict UNKNOWN with a guidance message (no exception); the
per-drug loop yields one entry per requested drug, a failing drug is
converted into an ERROR entry scoped to that drug while the sibling
entries are exactly the independently computed ones, and every
recommendation carries the drug, risk_level, dosing and monitoring
fields. -/
theorem c4_unknown_drug_and_isolation :
    (∀ (drug : String) (phenos : String → Option Phenotype),
        alistGet DRUG_ALIASES (pyStrip (pyLower drug)) = none →
        (∀ e ∈ DRUG_GENE_MAP, pyLower e.1 ≠ pyLower drug) →
        predict_drug_risk drug phenos =
          (RiskLevel.UNKNOWN,
           "No pharmacogenomic data available for '" ++ drug ++
           "'. Consult clinical pharmacist or CPIC guidelines.")) ∧
    (∀ (step : String → Except String (List (String × String)))
        (drugs : List String),
        (drug_risks_loop step drugs).map Prod.fst = drugs) ∧
    (∀ (step : String → Except String (List (String × String)))
        (pre post : List String) (b m : String),
        step b = .error m →
        drug_risks_loop step (pre ++ b :: post) =
          drug_risks_loop step pre ++
            (b, error_drug_entry b m) :: drug_risks_loop step post) ∧
    (∀ (drug : String) (phenos : String → Option Phenotype),
        alistGet (get_drug_recommendations drug phenos) "drug" =
          some (normalize_drug_name drug) ∧
        alistGet (get_drug_recommendations drug phenos) "risk_level" =
          some (predict_drug_risk (normalize_drug_name drug) phenos).1.value ∧
        (alistGet (get_drug_recommendations drug phenos)
          "dosing_recommendation").isSome = true ∧
        (alistGet (get_drug_recommendations drug phenos)
          "monitoring").isSome = true) := by
  refine ⟨?_, ?_, ?_, ?_⟩
  · intro drug phenos halias hmap
    have hnorm : normalize_drug_name drug = drug := by
      simp [normalize_drug_name, halias]
    have hfind : DRUG_GENE_MAP.find? (fun e => pyLower e.1 == pyLower drug) = none := by
      rw [List.find?_eq_none]
      intro e he
      simp only [beq_iff_eq]
      exact hmap e he
    have hrel : get_relevant_genes drug = [] := by
      unfold get_relevant_genes
      rw [hnorm, hfind]
    simp [predict_drug_risk, hnorm, hrel]
  · intro step drugs
    induction drugs with
    | nil => rfl
    | cons d rest ih => simp [drug_risks_loop] at ih ⊢; exact ih
  · intro step pre post b m hstep
    simp [drug_risks_loop, hstep]
  · intro drug phenos
    simp only [get_drug_recommendations]
    split <;> simp [alistGet]

/-- Witness for `c4_unknown_drug_and_isolation`: the unknown drug
"Aspirin", a concrete request list, and a step that fails on one drug. -/
theorem c4_unknown_drug_and_isolation_witness :
    predict_drug_risk "Aspirin" (fun _ => none) =
      (RiskLevel.UNKNOWN,
       "No pharmacogenomic data available for 'Aspirin'. Consult clinical pharmacist or CPIC guidelines.") ∧
    (drug_risks_loop (fun d => .ok (get_drug_recommendations d (fun _ => none)))
        ["Aspirin", "Codeine"]).map Prod.fst = ["Aspirin", "Codeine"] ∧
    drug_risks_loop
        (fun d => if d = "BadDrug" then .error "boom"
                  else .ok (get_drug_recommendations d (fun _ => none)))
        (["Codeine"] ++ "BadDrug" :: ["Warfarin"]) =
      drug_risks_loop
        (fun d => if d = "BadDrug" then .error "boom"
                  else .ok (get_drug_recommendations d (fun _ => none)))
        ["Codeine"] ++
        ("BadDrug", error_drug_entry "BadDrug" "boom") ::
          drug_risks_loop
            (fun d => if d = "BadDrug" then .error "boom"
                      else .ok (get_drug_recommendations d (fun _ => none)))
            ["Warfarin"] ∧
    alistGet (get_drug_recommendations "Aspirin" (fun _ => none)) "risk_level" =
      some (predict_drug_risk (normalize_drug_name "Aspirin") (fun _ => none)).1.value :=
  ⟨c4_unknown_drug_and_isolation.1 "Aspirin" (fun _ => none) (by decide) (by decide),
   c4_unknown_drug_and_isolation.2.1 _ _,
   c4_unknown_drug_and_isolation.2.2.1 _ ["Codeine"] ["Warfarin"] "BadDrug" "boom"
     rfl,
   (c4_unknown_drug_and_isolation.2.2.2 "Aspirin" (fun _ => none)).2.1⟩

/-- C9: `predict_drug_risk "Simvastatin"` returns UNKNOWN for every
phenotype assignment: the governing genes are CYP3A4 and SLCO1B1, but the
risk table's only Simvastatin key is ("SLC01B1", "Simvastatin") (digit
zero), no key exists for either governing gene, and the parser can only
ever emit the gene spelling "SLC01B1" (its tables never contain
"SLCO1B1"). -/
theorem c9_simvastatin_always_unknown :
    (∀ phenos : String → Option Phenotype,
        (predict_drug_risk "Simvastatin" phenos).1 = RiskLevel.UNKNOWN) ∧
    get_relevant_genes "Simvastatin" = ["CYP3A4", "SLCO1B1"] ∧
    (alistGet PHENOTYPE_RISK_MAP ("SLC01B1", "Simvastatin")).isSome = true ∧
    alistGet PHENOTYPE_RISK_MAP ("CYP3A4", "Simvastatin") = none ∧
    alistGet PHENOTYPE_RISK_MAP ("SLCO1B1", "Simvastatin") = none ∧
    (∀ (chrom : String) (pos : Int) (rs_id g : String),
        extract_gene chrom pos rs_id = some g → g ≠ "SLCO1B1") := by
  refine ⟨?_, by decide, by decide, by decide, by decide, ?_⟩
  · intro phenos
    simp only [predict_drug_risk]
    rw [show normalize_drug_name "Simvastatin" = "Simvastatin" from by decide]
    rw [show get_relevant_genes "Simvastatin" = ["CYP3A4", "SLCO1B1"] from by decide]
    cases h1 : phenos "CYP3A4" <;> cases h2 : phenos "SLCO1B1" <;>
      simp [gene_loop, h1, h2, alistGet, PHENOTYPE_RISK_MAP]
  · intro chrom pos rs_id g hg
    unfold extract_gene at hg
    split at hg
    · next gv hfind =>
      split at hfind
      · have hmem := List.mem_of_find?_eq_some hfind
        have hall : ∀ e ∈ KNOWN_VARIANTS, e.1 ≠ "SLCO1B1" := by decide
        injection hg with hg
        subst hg
        exact hall _ hmem
      · cases hfind
    · split at hg
      · next gc hfind2 =>
        have hmem := List.mem_of_find?_eq_some hfind2
        have hall : ∀ e ∈ GENE_CHROMOSOMES, e.1 ≠ "SLCO1B1" := by decide
        injection hg with hg
        subst hg
        exact hall _ hmem
      · cases hg

/-- Witness for `c9_simvastatin_always_unknown`: a phenotype assignment
that maps both governing genes to NORMAL still yields UNKNOWN, and a
concrete parsed record resolves to "SLC01B1", not "SLCO1B1". -/
theorem c9_simvastatin_always_unknown_witness :
    (predict_drug_risk "Simvastatin"
        (fun g => if g = "CYP3A4" ∨ g = "SLCO1B1" then some Phenotype.NORMAL
                  else none)).1 = RiskLevel.UNKNOWN ∧
    extract_gene "12" 21370535 "rs4149056" = some "SLC01B1" ∧
    (∀ g : String, extract_gene "12" 21370535 "rs4149056" = some g →
        g ≠ "SLCO1B1") :=
  ⟨c9_simvastatin_always_unknown.1 _,
   by decide,
   fun g hg => c9_simvastatin_always_unknown.2.2.2.2.2 "12" 21370535 "rs4149056" g hg⟩

/-- C10: `genotype_string_to_alleles` maps allele index "0" to "*1" and
every other index string to "*2" (so "1/2" and "1/1" both give
("*2", "*2")), returns `None` for any call string without "/" — including
phased calls like "0|1" — and a gene whose first variant carries such a
call receives neither a genotype nor a phenotype. -/
theorem c10_genotype_string_to_alleles :
    (∀ s : String, ('/' : Char) ∉ s.data → genotype_string_to_alleles s = none) ∧
    genotype_string_to_alleles "0|1" = none ∧
    idx_to_allele "0" = "*1" ∧
    (∀ t : String, t ≠ "0" → idx_to_allele t = "*2") ∧
    genotype_string_to_alleles "1/2" = some ("*2", "*2") ∧
    genotype_string_to_alleles "1/1" = some ("*2", "*2") ∧
    genotype_string_to_alleles "0/1" = some ("*1", "*2") ∧
    genotype_string_to_alleles "0/0" = some ("*1", "*1") ∧
    (∀ (gene : String) (v : Variant) (vs : List Variant)
        (rest : List (String × List Variant)),
        genotype_string_to_alleles v.genotype = none →
        classify_genes ((gene, v :: vs) :: rest) = classify_genes rest) := by
  refine ⟨?_, by decide, by decide, ?_, by decide, by decide, by decide, by decide, ?_⟩
  · intro s h
    simp [genotype_string_to_alleles, h]
  · intro t ht
    simp [idx_to_allele, ht]
  · intro gene v vs rest h
    simp [classify_genes, h]

/-- Witness for `c10_genotype_string_to_alleles`: the no-slash rule at
"0|1", the index rule at "7", and a concrete CYP2D6 variant with a phased
call contributing nothing. -/
theorem c10_genotype_string_to_alleles_witness :
    genotype_string_to_alleles "0|1" = none ∧
    idx_to_allele "7" = "*2" ∧
    classify_genes
        [("CYP2D6",
          [{ chrom := "22", pos := 42126499, ref := "C", alt := "T",
             gene := "CYP2D6", rs_id := some "rs1065852",
             genotype := "0|1", quality := 0, info := [] }])] =
      classify_genes [] :=
  ⟨c10_genotype_string_to_alleles.1 "0|1" (by decide),
   c10_genotype_string_to_alleles.2.2.2.1 "7" (by decide),
   c10_genotype_string_to_alleles.2.2.2.2.2.2.2.2 "CYP2D6" _ [] []
     (c10_genotype_string_to_alleles.1 "0|1" (by decide))⟩

/-- C2 counterexample: the spec says CYP2C19 uses the same 5-band ladder as
CYP2D6, so a total activity of 2.0 (≥ 1.75) would have to classify as
ULTRA_RAPID; the code's CYP2C19 ladder classifies 2.0 as NORMAL. -/
theorem c2_counterexample :
    activity_to_phenotype "CYP2C19" 2 = Phenotype.NORMAL ∧
    Phenotype.NORMAL ≠ Phenotype.ULTRA_RAPID := by
  constructor
  · rw [activity_to_phenotype_cyp2c19]
    norm_num
  · decide

/-- C2 (amended): CYP2D6 uses the claimed 5-band ladder (x ≥ 1.75
ULTRA_RAPID, 1.25 ≤ x < 1.75 RAPID, 1.0 < x < 1.25 NORMAL,
0.25 ≤ x ≤ 1.0 INTERMEDIATE, x < 0.25 POOR); CYP2C19 instead uses a
3-band ladder (x ≥ 1.5 NORMAL, 0.5 ≤ x < 1.5 INTERMEDIATE, x < 0.5
POOR). -/
theorem c2_phenotype_ladders (x : ℚ) :
    (1.75 ≤ x → activity_to_phenotype "CYP2D6" x = Phenotype.ULTRA_RAPID) ∧
    (1.25 ≤ x → x < 1.75 → activity_to_phenotype "CYP2D6" x = Phenotype.RAPID) ∧
    (1 < x → x < 1.25 → activity_to_phenotype "CYP2D6" x = Phenotype.NORMAL) ∧
    (0.25 ≤ x → x ≤ 1 → activity_to_phenotype "CYP2D6" x = Phenotype.INTERMEDIATE) ∧
    (x < 0.25 → activity_to_phenotype "CYP2D6" x = Phenotype.POOR) ∧
    (1.5 ≤ x → activity_to_phenotype "CYP2C19" x = Phenotype.NORMAL) ∧
    (0.5 ≤ x → x < 1.5 → activity_to_phenotype "CYP2C19" x = Phenotype.INTERMEDIATE) ∧
    (x < 0.5 → activity_to_phenotype "CYP2C19" x = Phenotype.POOR) := by
  rw [activity_to_phenotype_cyp2d6, activity_to_phenotype_cyp2c19]
  refine ⟨?_, ?_, ?_, ?_, ?_, ?_, ?_, ?_⟩ <;>
    intros <;> split_ifs <;> first | rfl | linarith

/-- Witness for `c2_phenotype_ladders`: each band evaluated at a concrete
activity score. -/
theorem c2_phenotype_ladders_witness :
    activity_to_phenotype "CYP2D6" 2 = Phenotype.ULTRA_RAPID ∧
    activity_to_phenotype "CYP2D6" 1.3 = Phenotype.RAPID ∧
    activity_to_phenotype "CYP2D6" 1.1 = Phenotype.NORMAL ∧
    activity_to_phenotype "CYP2D6" 0.5 = Phenotype.INTERMEDIATE ∧
    activity_to_phenotype "CYP2D6" 0.1 = Phenotype.POOR ∧
    activity_to_phenotype "CYP2C19" 2 = Phenotype.NORMAL ∧
    activity_to_phenotype "CYP2C19" 1 = Phenotype.INTERMEDIATE ∧
    activity_to_phenotype "CYP2C19" 0.1 = Phenotype.POOR :=
  ⟨(c2_phenotype_ladders 2).1 (by norm_num),
   (c2_phenotype_ladders 1.3).2.1 (by norm_num) (by norm_num),
   (c2_phenotype_ladders 1.1).2.2.1 (by norm_num) (by norm_num),
   (c2_phenotype_ladders 0.5).2.2.2.1 (by norm_num) (by norm_num),
   (c2_phenotype_ladders 0.1).2.2.2.2.1 (by norm_num),
   (c2_phenotype_ladders 2).2.2.2.2.2.1 (by norm_num),
   (c2_phenotype_ladders 1).2.2.2.2.2.2.1 (by norm_num) (by norm_num),
   (c2_phenotype_ladders 0.1).2.2.2.2.2.2.2 (by norm_num)⟩

/-- C5: in the activity model, an allele absent from the gene's table
contributes the wildtype activity 1.0, the total activity is the sum of
the two per-allele activities, and that total always lies in [0, 2]. -/
theorem c5_activity_model_bounds (gene : String) (tbl : List (String × ℚ))
    (a1 a2 : String) (h : allele_definitions gene = some tbl) :
    (alistGet tbl a1 = none → get_activity tbl a1 = 1) ∧
    total_activity tbl (a1, a2) = get_activity tbl a1 + get_activity tbl a2 ∧
    0 ≤ total_activity tbl (a1, a2) ∧ total_activity tbl (a1, a2) ≤ 2 := by
  have hb := allele_definitions_bounded gene tbl h
  have h1 := get_activity_bounds hb a1
  have h2 := get_activity_bounds hb a2
  refine ⟨?_, rfl, ?_, ?_⟩
  · intro hnone
    simp [get_activity, hnone]
  · unfold total_activity
    linarith [h1.1, h2.1]
  · unfold total_activity
    linarith [h1.2, h2.2]

/-- Witness for `c5_activity_model_bounds` at gene CYP2D6 with one unknown
allele. -/
theorem c5_activity_model_bounds_witness :
    get_activity CYP2D6_ALLELES "*99" = 1 ∧
    0 ≤ total_activity CYP2D6_ALLELES ("*99", "*4") ∧
    total_activity CYP2D6_ALLELES ("*99", "*4") ≤ 2 :=
  ⟨(c5_activity_model_bounds "CYP2D6" CYP2D6_ALLELES "*99" "*4" rfl).1 (by decide),
   (c5_activity_model_bounds "CYP2D6" CYP2D6_ALLELES "*99" "*4" rfl).2.2.1,
   (c5_activity_model_bounds "CYP2D6" CYP2D6_ALLELES "*99" "*4" rfl).2.2.2⟩

/-- C6: the CYP2D6 diplotype (*1, *1) gets total activity 2.0 and
phenotype ULTRA_RAPID through `genotype_to_phenotype` (activity-model
path), even though the legacy exact-diplotype table lists it as NORMAL. -/
theorem c6_cyp2d6_star1_star1 :
    genotype_to_phenotype "CYP2D6" ("*1", "*1") = some Phenotype.ULTRA_RAPID ∧
    total_activity CYP2D6_ALLELES ("*1", "*1") = 2 ∧
    allele_definitions "CYP2D6" = some CYP2D6_ALLELES ∧
    legacy_phenotype_lookup "CYP2D6" ("*1", "*1") = some Phenotype.NORMAL := by
  have hact : total_activity CYP2D6_ALLELES ("*1", "*1") = 2 := by
    simp [total_activity, get_activity, alistGet, CYP2D6_ALLELES]
    norm_num
  refine ⟨?_, hact, rfl, by decide⟩
  have hconv : convert_diplotype_to_phenotype "CYP2D6" ("*1", "*1") =
      Phenotype.ULTRA_RAPID := by
    unfold convert_diplotype_to_phenotype
    show activity_to_phenotype "CYP2D6" (total_activity CYP2D6_ALLELES ("*1", "*1")) =
      Phenotype.ULTRA_RAPID
    rw [hact, activity_to_phenotype_cyp2d6]
    norm_num
  simp [genotype_to_phenotype, supported_genes, hconv]

/-- C8: `genotype_to_phenotype` is symmetric under allele order swap, on
the activity-model path (the activity sum is commutative) and on the
legacy exact-diplotype path (exact match, then reversed pair; the legacy
tables never map a reversed pair to a different phenotype). -/
theorem c8_phenotype_swap_symmetric (gene a b : String) :
    genotype_to_phenotype gene (a, b) = genotype_to_phenotype gene (b, a) ∧
    convert_diplotype_to_phenotype gene (a, b) =
      convert_diplotype_to_phenotype gene (b, a) ∧
    legacy_phenotype_lookup gene (a, b) = legacy_phenotype_lookup gene (b, a) := by
  refine ⟨?_, convert_diplotype_comm gene a b, legacy_phenotype_lookup_comm gene a b⟩
  unfold genotype_to_phenotype
  by_cases hs : gene ∈ supported_genes
  · simp [hs, convert_diplotype_comm gene a b]
  · simp [hs, legacy_phenotype_lookup_comm gene a b]

end PharmaGuard
